import Mathlib

/-!
Verification of the deterministic call-center simulation core of
TheCallFloor.  Each JavaScript class/function is shallowly embedded as a
Lean definition: JS numbers are modelled as exact rationals `ℚ` (integers
as `ℤ`/`ℕ`), 32-bit coercions are explicit `% 2^32` arithmetic, JS `Map`s
are association lists in insertion order, and transcendental library calls
(`Math.log`, `Math.cos`, `Math.sqrt`, `Math.pow` at fractional exponents)
plus the ambient clock `Date.now()` are supplied through an explicit
environment record so every definition stays executable.
-/

/-- Environment for the JS `Math` functions that have no exact rational
value (used by `gaussian` and the fractional-exponent `Math.pow` calls)
together with the ambient wall clock `Date.now()`. -/
structure JSMath where
  sqrt : ℚ → ℚ
  log : ℚ → ℚ
  cos : ℚ → ℚ
  pi : ℚ
  rpow : ℚ → ℚ → ℚ
  now : ℤ

/-- A trivial instantiation of the environment, used to run definitions on
concrete inputs. -/
def trivialJSMath : JSMath :=
  { sqrt := fun _ => 0, log := fun _ => 0, cos := fun _ => 0,
    pi := 0, rpow := fun _ _ => 0, now := 0 }

/-! ### 32-bit helpers (JS `ToUint32` / bitwise coercions)

JS bitwise operators coerce operands to 32-bit integers; all the operators
used by `SeededRNG.random` (`^`, `|`, `>>>`, `Math.imul`, and `+` followed
by a bitwise use) factor through the residue of the operand modulo 2^32,
so we compute on the unsigned residues. -/

def toU32 (n : ℤ) : ℕ := (n % (4294967296 : ℤ)).toNat

def imul32 (a b : ℕ) : ℕ := (a * b) % 4294967296

def add32 (a b : ℕ) : ℕ := (a + b) % 4294967296

/-! ### SeededRNG (src/simulation/SeededRNG.js)

`this.state += 0x6D2B79F5` keeps the full numeric state (the bitwise
operations only coerce the value they consume), so the state is modelled
as an integer `ℤ`.  `0x6D2B79F5 = 1831565813`. -/

/-- One mulberry32 draw: `SeededRNG.random`.  Returns the uniform value in
`[0,1)` and the updated state. -/
def mulberry32 (state : ℤ) : ℚ × ℤ :=
  let state' := state + 1831565813
  let t0 := toU32 state'
  let t1 := imul32 (t0 ^^^ (t0 >>> 15)) (t0 ||| 1)
  let t2 := t1 ^^^ (add32 t1 (imul32 (t1 ^^^ (t1 >>> 7)) (t1 ||| 61)))
  let out := t2 ^^^ (t2 >>> 14)
  ((out : ℚ) / 4294967296, state')

structure SeededRNG where
  seed : ℤ
  state : ℤ
deriving DecidableEq

namespace SeededRNG

/-- `new SeededRNG(seed)`. -/
def init (seed : ℤ) : SeededRNG := ⟨seed, seed⟩

/-- `reset()`: restore the initial seed state. -/
def reset (r : SeededRNG) : SeededRNG := { r with state := r.seed }

/-- `setSeed(seed)`. -/
def setSeed (_ : SeededRNG) (seed : ℤ) : SeededRNG := ⟨seed, seed⟩

/-- Lift a state-transition (the class methods only ever read and write
`this.state`) to the full `SeededRNG` record. -/
def liftS (f : ℤ → α × ℤ) (r : SeededRNG) : α × SeededRNG :=
  ((f r.state).1, { r with state := (f r.state).2 })

/-- `random()`. -/
def random : SeededRNG → ℚ × SeededRNG := liftS mulberry32

/-- State-level `randomInt(min, max)`:
`Math.floor(this.random() * (max - min + 1)) + min`. -/
def randomIntS (min max : ℤ) (st : ℤ) : ℤ × ℤ :=
  let (v, s') := mulberry32 st
  (⌊v * ((max : ℚ) - (min : ℚ) + 1)⌋ + min, s')

def randomInt (r : SeededRNG) (min max : ℤ) : ℤ × SeededRNG :=
  liftS (randomIntS min max) r

/-- `randomFloat(min, max)`. -/
def randomFloatS (min max : ℚ) (st : ℤ) : ℚ × ℤ :=
  let (v, s') := mulberry32 st
  (v * (max - min) + min, s')

def randomFloat (r : SeededRNG) (min max : ℚ) : ℚ × SeededRNG :=
  liftS (randomFloatS min max) r

/-- `chance(probability)`: `this.random() < probability`. -/
def chanceS (p : ℚ) (st : ℤ) : Bool × ℤ :=
  let (v, s') := mulberry32 st
  (decide (v < p), s')

def chance (r : SeededRNG) (p : ℚ) : Bool × SeededRNG :=
  liftS (chanceS p) r

/-- `pick(array)`: `null` on an empty array (no draw), otherwise the
element at `randomInt(0, length-1)`. -/
def pickS (arr : List ℤ) (st : ℤ) : Option ℤ × ℤ :=
  if arr.isEmpty then (none, st)
  else
    let (i, s') := randomIntS 0 ((arr.length : ℤ) - 1) st
    (some (arr.getD i.toNat 0), s')

def pick (r : SeededRNG) (arr : List ℤ) : Option ℤ × SeededRNG :=
  liftS (pickS arr) r

/-- Swap two positions of a list (the JS destructuring swap). -/
def listSwap (l : List ℤ) (i j : ℕ) : List ℤ :=
  (l.set i (l.getD j 0)).set j (l.getD i 0)

/-- The Fisher–Yates loop of `shuffle`, with `k` the current index `i`
counting down to 1. -/
def shuffleAuxS (k : ℕ) (arr : List ℤ) (st : ℤ) : List ℤ × ℤ :=
  match k with
  | 0 => (arr, st)
  | i + 1 =>
    let (j, s') := randomIntS 0 (i + 1 : ℕ) st
    shuffleAuxS i (listSwap arr (i + 1) j.toNat) s'

/-- `shuffle(array)` (in place Fisher–Yates; we return the shuffled list). -/
def shuffleS (arr : List ℤ) (st : ℤ) : List ℤ × ℤ :=
  shuffleAuxS (arr.length - 1) arr st

def shuffle (r : SeededRNG) (arr : List ℤ) : List ℤ × SeededRNG :=
  liftS (shuffleS arr) r

/-- `gaussian(mean, stdDev)` (Box–Muller); `Math.sqrt/log/cos` and
`Math.PI` come from the environment. -/
def gaussianS (env : JSMath) (mean stdDev : ℚ) (st : ℤ) : ℚ × ℤ :=
  let (u1, s1) := mulberry32 st
  let (u2, s2) := mulberry32 s1
  let z0 := env.sqrt (-2 * env.log u1) * env.cos (2 * env.pi * u2)
  (z0 * stdDev + mean, s2)

def gaussian (env : JSMath) (r : SeededRNG) (mean stdDev : ℚ) :
    ℚ × SeededRNG :=
  liftS (gaussianS env mean stdDev) r

end SeededRNG

/-- Outputs of the `SeededRNG` operations. -/
inductive JSValue where
  | num (q : ℚ)
  | int (n : ℤ)
  | bool (b : Bool)
  | list (l : List ℤ)
  | opt (o : Option ℤ)
deriving DecidableEq

/-- One call against a `SeededRNG` instance. -/
inductive RNGOp where
  | rand
  | randInt (min max : ℤ)
  | randFloat (min max : ℚ)
  | chance (p : ℚ)
  | pick (arr : List ℤ)
  | shuffle (arr : List ℤ)
  | gaussian (mean stdDev : ℚ)
deriving DecidableEq

/-- State-level interpretation of one operation. -/
def runOpS (env : JSMath) : RNGOp → ℤ → JSValue × ℤ
  | RNGOp.rand, st => let (v, s') := mulberry32 st; (JSValue.num v, s')
  | RNGOp.randInt a b, st =>
      let (v, s') := SeededRNG.randomIntS a b st; (JSValue.int v, s')
  | RNGOp.randFloat a b, st =>
      let (v, s') := SeededRNG.randomFloatS a b st; (JSValue.num v, s')
  | RNGOp.chance p, st =>
      let (v, s') := SeededRNG.chanceS p st; (JSValue.bool v, s')
  | RNGOp.pick arr, st =>
      let (v, s') := SeededRNG.pickS arr st; (JSValue.opt v, s')
  | RNGOp.shuffle arr, st =>
      let (v, s') := SeededRNG.shuffleS arr st; (JSValue.list v, s')
  | RNGOp.gaussian m sd, st =>
      let (v, s') := SeededRNG.gaussianS env m sd st; (JSValue.num v, s')

/-- One operation against an instance. -/
def runOp (env : JSMath) (op : RNGOp) : SeededRNG → JSValue × SeededRNG :=
  SeededRNG.liftS (runOpS env op)

/-- A sequence of operation calls against an instance, collecting the
outputs. -/
def runOps (env : JSMath) : List RNGOp → SeededRNG → List JSValue × SeededRNG
  | [], r => ([], r)
  | op :: rest, r =>
    let (v, r') := runOp env op r
    let (vs, r'') := runOps env rest r'
    (v :: vs, r'')

theorem runOp_seed (env : JSMath) (op : RNGOp) (r : SeededRNG) :
    (runOp env op r).2.seed = r.seed := rfl

theorem runOp_state (env : JSMath) (op : RNGOp) (r : SeededRNG) :
    (runOp env op r).1 = (runOpS env op r.state).1 ∧
      (runOp env op r).2.state = (runOpS env op r.state).2 := ⟨rfl, rfl⟩

theorem runOps_seed (env : JSMath) (ops : List RNGOp) (r : SeededRNG) :
    (runOps env ops r).2.seed = r.seed := by
  induction ops generalizing r with
  | nil => rfl
  | cons op rest ih => simpa [runOps] using ih (runOp env op r).2

theorem runOps_congr (env : JSMath) (ops : List RNGOp) :
    ∀ r₁ r₂ : SeededRNG, r₁.state = r₂.state →
      (runOps env ops r₁).1 = (runOps env ops r₂).1 ∧
        (runOps env ops r₁).2.state = (runOps env ops r₂).2.state := by
  induction ops with
  | nil => intro r₁ r₂ h; exact ⟨rfl, h⟩
  | cons op rest ih =>
    intro r₁ r₂ h
    have h1 : (runOp env op r₁).1 = (runOp env op r₂).1 := by
      simp only [runOp, SeededRNG.liftS, h]
    have h2 : (runOp env op r₁).2.state = (runOp env op r₂).2.state := by
      simp only [runOp, SeededRNG.liftS, h]
    obtain ⟨hv, hs⟩ := ih (runOp env op r₁).2 (runOp env op r₂).2 h2
    constructor
    · simp only [runOps]; rw [h1, hv]
    · simp only [runOps]; rw [hs]

/-- C1: two `SeededRNG` instances with equal internal state (in particular
two instances constructed from the same seed) produce identical output
sequences for any identical sequence of operation calls; `reset()`
restores the initial seed state, so replaying any sequence of operations
after a `reset()` reproduces the outputs of a freshly constructed
instance; and in particular two instances seeded alike agree on 1000
consecutive `random()` draws. -/
theorem seededRNG_deterministic_and_reset_reproduces :
    (∀ (env : JSMath) (ops : List RNGOp) (r₁ r₂ : SeededRNG),
        r₁.state = r₂.state →
        (runOps env ops r₁).1 = (runOps env ops r₂).1) ∧
    (∀ (env : JSMath) (s : ℤ) (pre ops : List RNGOp),
        (runOps env ops ((runOps env pre (SeededRNG.init s)).2.reset)).1 =
          (runOps env ops (SeededRNG.init s)).1) ∧
    (∀ (env : JSMath) (s : ℤ) (r₁ r₂ : SeededRNG),
        r₁ = SeededRNG.init s → r₂ = SeededRNG.init s →
        (runOps env (List.replicate 1000 RNGOp.rand) r₁).1 =
          (runOps env (List.replicate 1000 RNGOp.rand) r₂).1) := by
  refine ⟨fun env ops r₁ r₂ h => (runOps_congr env ops r₁ r₂ h).1, ?_, ?_⟩
  · intro env s pre ops
    apply (runOps_congr env ops _ _ ?_).1
    show ((runOps env pre (SeededRNG.init s)).2.reset).state =
      (SeededRNG.init s).state
    simp [SeededRNG.reset, runOps_seed, SeededRNG.init]
  · intro env s r₁ r₂ h₁ h₂
    subst h₁; subst h₂; rfl

theorem seededRNG_deterministic_witness :
    (SeededRNG.init 42).state = (SeededRNG.init 42).state ∧
      (runOps trivialJSMath [RNGOp.rand, RNGOp.chance (1/2)]
          (SeededRNG.init 42)).1 =
        (runOps trivialJSMath [RNGOp.rand, RNGOp.chance (1/2)]
          (SeededRNG.init 42)).1 :=
  ⟨rfl, seededRNG_deterministic_and_reset_reproduces.1 trivialJSMath
    [RNGOp.rand, RNGOp.chance (1/2)]
    (SeededRNG.init 42) (SeededRNG.init 42) rfl⟩

/-! ### Formula library (src/balance/Formulas.js) -/

/-- `clamp(value, min, max)` = `Math.min(Math.max(value, min), max)`. -/
def jsClamp (value lo hi : ℚ) : ℚ := min (max value lo) hi

/-- JS `Math.round` (half away from zero rounds toward positive infinity):
`Math.round(x) = ⌊x + 1/2⌋`. -/
def jsRound (q : ℚ) : ℤ := ⌊q + 1/2⌋

/-- Parameters of `calculateAnswerProbability`, with the source defaults.
`timeFactors` is the JS object `{hour: factor}`, modelled as an
association list. -/
structure AnswerProbParams where
  baseAnswerProb : ℚ := 9/50
  leadIntent : ℚ := 1
  hourOfDay : ℤ := 12
  reputation : ℚ := 75
  dialerConnectMultiplier : ℚ := 1
  localPresenceBonus : ℚ := 0
  spamTagProbability : ℚ := 0
  timeFactors : List (ℤ × ℚ) := []

/-- Property lookup `timeFactors[hourOfDay]` (`undefined` when absent). -/
def timeFactorLookup (tf : List (ℤ × ℚ)) (h : ℤ) : Option ℚ :=
  (tf.find? (fun e => decide (e.1 = h))).map (fun e => e.2)

/-- `calculateAnswerProbability`.  Note `timeFactors[hourOfDay] || 1.0`
falls back to `1.0` both when the entry is absent and when the entry is
the falsy number `0`. -/
def calculateAnswerProbability (p : AnswerProbParams) : ℚ :=
  let timeWindowFactor :=
    match timeFactorLookup p.timeFactors p.hourOfDay with
    | some v => if v = 0 then 1 else v
    | none => 1
  let reputationFactor := 1/2 + (p.reputation / 100) * (7/10)
  let spamPenalty := 1 - p.spamTagProbability * (6/10)
  let localBonus := 1 + p.localPresenceBonus
  jsClamp (p.baseAnswerProb * p.leadIntent * timeWindowFactor *
    reputationFactor * p.dialerConnectMultiplier * spamPenalty * localBonus)
    0 (19/20)

/-- The answer-probability formula as the claim words it: the
time-of-day factor is "the timeFactors entry for hourOfDay (defaulting to
1.0)", i.e. the entry whenever it is present. -/
def answerProbabilityClaim (p : AnswerProbParams) : ℚ :=
  let timeWindowFactor :=
    (timeFactorLookup p.timeFactors p.hourOfDay).getD 1
  let reputationFactor := 1/2 + (p.reputation / 100) * (7/10)
  let spamPenalty := 1 - p.spamTagProbability * (6/10)
  let localBonus := 1 + p.localPresenceBonus
  jsClamp (p.baseAnswerProb * p.leadIntent * timeWindowFactor *
    reputationFactor * p.dialerConnectMultiplier * spamPenalty * localBonus)
    0 (19/20)

/-- Parameters of `calculateSpamTagProbability`, with source defaults. -/
structure SpamTagParams where
  reputation : ℚ := 75
  dialVolume : ℚ := 0
  volumeThreshold : ℚ := 200
  dialerSpamMultiplier : ℚ := 1
  spamReduction : ℚ := 0

def calculateSpamTagProbability (p : SpamTagParams) : ℚ :=
  let baseSpam := max 0 ((100 - p.reputation) / 200)
  let volumeRatio := p.dialVolume / max p.volumeThreshold 1
  let volumeFactor :=
    if volumeRatio > 3/2 then 1 + (volumeRatio - 3/2) * (1/2) else 1
  jsClamp (baseSpam * p.dialerSpamMultiplier * volumeFactor *
    (1 - p.spamReduction)) 0 (4/5)

/-- `calculateFatiguePenalty` uses `Math.pow` at the fractional exponent
2.5, supplied through the environment. -/
def calculateFatiguePenalty (env : JSMath) (fatigue : ℚ)
    (exponent : ℚ := 5/2) (maxPenalty : ℚ := 1/2) : ℚ :=
  env.rpow (jsClamp fatigue 0 1) exponent * maxPenalty

structure ConversionProbParams where
  baseConversionProb : ℚ := 7/100
  agentMultiplier : ℚ := 1
  fatigue : ℚ := 0
  dialerQAMultiplier : ℚ := 1
  leadRoutingBonus : ℚ := 0
  morale : ℚ := 1/2

def calculateConversionProbability (env : JSMath)
    (p : ConversionProbParams) : ℚ :=
  let fatiguePenalty := calculateFatiguePenalty env p.fatigue
  let moraleFactor := 4/5 + p.morale * (2/5)
  let routingFactor := 1 + p.leadRoutingBonus
  jsClamp (p.baseConversionProb * p.agentMultiplier * (1 - fatiguePenalty) *
    p.dialerQAMultiplier * moraleFactor * routingFactor) 0 (4/5)

def calculateFatigueGain (resilience : ℚ) (baseFatigueGain : ℚ := 1/100)
    (fatigueGainReduction : ℚ := 0) : ℚ :=
  baseFatigueGain * (1 - resilience * (6/10)) * (1 - fatigueGainReduction)

def calculateFatigueRecovery (baseFatigueRecovery : ℚ := 1/50)
    (recoveryBonus : ℚ := 0) : ℚ :=
  baseFatigueRecovery * (1 + recoveryBonus)

structure AHTParams where
  baseAHT : ℚ := 180
  agentSpeedWrapup : ℚ := 2/5
  dialerAHTReduction : ℚ := 0
  consistencyVariance : ℚ := 3/10

/-- `calculateAHT`, with the single `randomFn()` draw passed explicitly. -/
def calculateAHT (p : AHTParams) (randDraw : ℚ) : ℤ :=
  let speedReduction := p.agentSpeedWrapup * (3/10)
  let totalReduction := min (speedReduction + p.dialerAHTReduction) (1/2)
  let baseTime := p.baseAHT * (1 - totalReduction)
  let variance := (randDraw - 1/2) * 2 * p.consistencyVariance * baseTime
  max 30 (jsRound (baseTime + variance))

structure WrapUpParams where
  baseWrapUp : ℚ := 45
  agentSpeedWrapup : ℚ := 2/5
  dialerAHTReduction : ℚ := 0

def calculateWrapUpTime (p : WrapUpParams) : ℤ :=
  let speedReduction := p.agentSpeedWrapup * (4/10)
  let totalReduction := min (speedReduction + p.dialerAHTReduction) (6/10)
  max 10 (jsRound (p.baseWrapUp * (1 - totalReduction)))

structure ConversionRevenueParams where
  baseRevenue : ℚ := 120
  leadQualityMultiplier : ℚ := 1
  upgradeBonuses : ℚ := 0

def calculateConversionRevenue (p : ConversionRevenueParams) : ℤ :=
  jsRound (p.baseRevenue * p.leadQualityMultiplier * (1 + p.upgradeBonuses))

/-- `calculateTrainingXP`: `Math.pow(diminishingFactor, currentLevel*10)`
has a fractional exponent in general, supplied via the environment. -/
def calculateTrainingXP (env : JSMath) (baseXP currentLevel : ℚ)
    (trainingEfficiency : ℚ := 0) (diminishingFactor : ℚ := 17/20) : ℤ :=
  jsRound (baseXP * env.rpow diminishingFactor (currentLevel * 10) *
    (1 + trainingEfficiency))

def calculateAgentConversionMultiplier
    (skillTalktrack charisma consistency : ℚ) : ℚ :=
  (7/10 + skillTalktrack * (6/10)) * (1 + charisma * (15/100)) *
    (1 + consistency * (5/100))

/-- `calculateUpgradeCost(baseCost, level, growthRate)` =
`Math.round(baseCost * Math.pow(growthRate, level))` (integer level). -/
def calculateUpgradeCost (baseCost : ℚ) (level : ℕ)
    (growthRate : ℚ := 3/2) : ℤ :=
  jsRound (baseCost * growthRate ^ level)

/-- C2 counterexample: with a present-but-zero `timeFactors` entry for the
current hour, the code's `timeFactors[hourOfDay] || 1.0` falls back to 1.0,
so the result is 0.1845, while the claim's formula (time-of-day factor =
the entry) gives 0. -/
theorem calculateAnswerProbability_zero_entry_counterexample :
    calculateAnswerProbability { timeFactors := [(12, 0)] } = 369/2000 ∧
      answerProbabilityClaim { timeFactors := [(12, 0)] } = 0 ∧
      (369/2000 : ℚ) ≠ 0 := by
  refine ⟨?_, ?_, by norm_num⟩ <;>
    norm_num [calculateAnswerProbability, answerProbabilityClaim,
      timeFactorLookup, jsClamp, List.find?, min_def, max_def]

/-- C2 (amended): `calculateAnswerProbability` returns exactly
clamp(baseAnswerProb × leadIntent × timeOfDayFactor × reputationFactor ×
dialerConnectMultiplier × (1 − 0.6·spamTagProbability) ×
(1 + localPresenceBonus), 0, 0.95) with reputationFactor =
0.5 + (reputation/100)·0.7, where timeOfDayFactor is the `timeFactors`
entry for `hourOfDay` when that entry is present and nonzero and 1.0
otherwise; the result always lies in [0, 0.95]; and it agrees with the
claim's reading (entry whenever present) whenever the entry is not the
falsy number 0. -/
theorem calculateAnswerProbability_formula_and_bounds (p : AnswerProbParams) :
    (calculateAnswerProbability p =
      jsClamp (p.baseAnswerProb * p.leadIntent *
        (match timeFactorLookup p.timeFactors p.hourOfDay with
         | some v => if v = 0 then 1 else v
         | none => 1) *
        (1/2 + (p.reputation / 100) * (7/10)) * p.dialerConnectMultiplier *
        (1 - p.spamTagProbability * (6/10)) * (1 + p.localPresenceBonus))
        0 (19/20)) ∧
    0 ≤ calculateAnswerProbability p ∧
    calculateAnswerProbability p ≤ 19/20 ∧
    ((timeFactorLookup p.timeFactors p.hourOfDay).getD 1 ≠ 0 →
      calculateAnswerProbability p = answerProbabilityClaim p) := by
  refine ⟨rfl, ?_, ?_, ?_⟩
  · unfold calculateAnswerProbability jsClamp
    exact le_min (le_max_right _ _) (by norm_num)
  · unfold calculateAnswerProbability jsClamp
    exact min_le_right _ _
  · intro h
    unfold calculateAnswerProbability answerProbabilityClaim
    cases hl : timeFactorLookup p.timeFactors p.hourOfDay with
    | none => simp [hl]
    | some v =>
      rw [hl] at h
      simp only [hl, Option.getD_some] at h ⊢
      rw [if_neg h]

theorem calculateAnswerProbability_bounds_witness :
    ((timeFactorLookup ([(12, 6/5)] : List (ℤ × ℚ)) 12).getD 1 ≠ 0) ∧
      calculateAnswerProbability { timeFactors := [(12, 6/5)] } =
        answerProbabilityClaim { timeFactors := [(12, 6/5)] } :=
  ⟨by norm_num [timeFactorLookup, List.find?],
    (calculateAnswerProbability_formula_and_bounds
      { timeFactors := [(12, 6/5)] }).2.2.2
      (by norm_num [timeFactorLookup, List.find?])⟩

/-- C8 counterexample: with baseCost = 1 > 0 and growthRate = 11/10 > 1,
rounding collapses consecutive levels: the cost is 1 at both level 0 and
level 1, so the returned cost is not strictly increasing in level. -/
theorem calculateUpgradeCost_not_strictly_increasing :
    (0 : ℚ) < 1 ∧ (1 : ℚ) < 11/10 ∧
      calculateUpgradeCost 1 0 (11/10) = 1 ∧
      calculateUpgradeCost 1 1 (11/10) = 1 := by
  refine ⟨by norm_num, by norm_num, ?_, ?_⟩ <;>
    norm_num [calculateUpgradeCost, jsRound]

/-- C8 (amended): `calculateUpgradeCost(baseCost, level, growthRate)` =
round(baseCost × growthRate^level) with the concrete values
`calculateUpgradeCost(100, 0, 1.5) = 100`, `= 150` at level 1 and `= 225`
at level 2; and for every baseCost > 0 and growthRate > 1 the returned
cost is monotone non-decreasing in level (strict increase fails in
general, see the counterexample). -/
theorem calculateUpgradeCost_formula_and_monotone :
    (∀ (b g : ℚ) (l : ℕ), calculateUpgradeCost b l g = ⌊b * g ^ l + 1/2⌋) ∧
    calculateUpgradeCost 100 0 (3/2) = 100 ∧
    calculateUpgradeCost 100 1 (3/2) = 150 ∧
    calculateUpgradeCost 100 2 (3/2) = 225 ∧
    (∀ (b g : ℚ), 0 < b → 1 < g → ∀ l : ℕ,
      calculateUpgradeCost b l g ≤ calculateUpgradeCost b (l+1) g) := by
  refine ⟨fun b g l => rfl, ?_, ?_, ?_, ?_⟩
  · norm_num [calculateUpgradeCost, jsRound]
  · norm_num [calculateUpgradeCost, jsRound]
  · norm_num [calculateUpgradeCost, jsRound]
  intro b g hb hg l
  unfold calculateUpgradeCost jsRound
  have h1 : g ^ l ≤ g ^ (l + 1) := pow_le_pow_right₀ hg.le (Nat.le_succ l)
  have h2 : b * g ^ l ≤ b * g ^ (l + 1) :=
    mul_le_mul_of_nonneg_left h1 hb.le
  exact Int.floor_le_floor (by linarith)

theorem calculateUpgradeCost_monotone_witness :
    (0 : ℚ) < 100 ∧ (1 : ℚ) < 3/2 ∧
      calculateUpgradeCost 100 0 (3/2) ≤ calculateUpgradeCost 100 1 (3/2) :=
  ⟨by norm_num, by norm_num,
    calculateUpgradeCost_formula_and_monotone.2.2.2.2 100 (3/2)
      (by norm_num) (by norm_num) 0⟩

/-! ### Lead (src/models/Lead.js) -/

inductive LeadStatus where
  | fresh
  | contacted
  | converted
  | exhausted
  | dnc
deriving DecidableEq

structure Lead where
  id : String
  sourceId : String
  baseAnswerProbability : ℚ
  baseConversionProbability : ℚ
  intentMultiplier : ℚ
  complianceRisk : ℚ
  freshnessDecayPerDay : ℚ
  createdAt : ℤ
  lastDialedAt : Option ℤ
  dialAttempts : ℕ
  maxDialAttempts : ℕ
  preferredHours : List ℤ
  status : LeadStatus
  convertedAt : Option ℤ
deriving DecidableEq

/-- Constructor parameters of `new Lead({...})` with the source defaults. -/
structure LeadParams where
  id : String
  sourceId : String
  baseAnswerProbability : ℚ := 9/50
  baseConversionProbability : ℚ := 7/100
  intentMultiplier : ℚ := 1
  complianceRisk : ℚ := 1/10
  freshnessDecayPerDay : ℚ := 1/100
  createdAt : ℤ

/-- `_generatePreferredHours(randomFn)` from its two draws. -/
def generatePreferredHours (d0 d1 : ℚ) : List ℤ :=
  let morning := d0 > 3/10
  let evening := d1 > 1/2
  let hours := (if morning then [10, 11, 12, 13, 14] else []) ++
    (if evening then [17, 18, 19] else [])
  if hours.isEmpty then [10, 11, 14, 15] else hours

namespace Lead

/-- The `Lead` constructor; `randomFn` supplies the sequential draws of the
injected random function (two for the probability jitter, two for the
preferred hours). -/
def mkNew (p : LeadParams) (randomFn : ℕ → ℚ) : Lead :=
  let variance : ℚ := 1/10
  { id := p.id
    sourceId := p.sourceId
    baseAnswerProbability := jsClamp
      (p.baseAnswerProbability * (1 + (randomFn 0 - 1/2) * variance))
      (1/20) (19/20)
    baseConversionProbability := jsClamp
      (p.baseConversionProbability * (1 + (randomFn 1 - 1/2) * variance))
      (1/100) (1/2)
    intentMultiplier := p.intentMultiplier
    complianceRisk := p.complianceRisk
    freshnessDecayPerDay := p.freshnessDecayPerDay
    createdAt := p.createdAt
    lastDialedAt := none
    dialAttempts := 0
    maxDialAttempts := 3
    preferredHours := generatePreferredHours (randomFn 2) (randomFn 3)
    status := LeadStatus.fresh
    convertedAt := none }

/-- `getFreshness()`; `Date.now()` is passed as `now` (milliseconds). -/
def getFreshness (l : Lead) (now : ℤ) : ℚ :=
  let daysSinceCreated : ℚ := ((now : ℚ) - (l.createdAt : ℚ)) / 86400000
  let decay := daysSinceCreated * l.freshnessDecayPerDay
  jsClamp (1 - decay) (1/5) 1

/-- `getTimeMultiplier(hourOfDay)`. -/
def getTimeMultiplier (l : Lead) (hourOfDay : ℤ) : ℚ :=
  if l.preferredHours.contains hourOfDay then 6/5
  else if hourOfDay < 9 ∨ hourOfDay > 19 then 1/2
  else 1

/-- `getAnswerProbability(hourOfDay)`. -/
def getAnswerProbability (l : Lead) (hourOfDay : ℤ) (now : ℤ) : ℚ :=
  let freshness := l.getFreshness now
  let timeFactor := l.getTimeMultiplier hourOfDay
  let dialPenalty : ℚ := (4/5) ^ l.dialAttempts
  jsClamp (l.baseAnswerProbability * l.intentMultiplier * freshness *
    timeFactor * dialPenalty) (1/100) (19/20)

/-- `getConversionProbability()`. -/
def getConversionProbability (l : Lead) (now : ℤ) : ℚ :=
  let freshness := l.getFreshness now
  jsClamp (l.baseConversionProbability * l.intentMultiplier * freshness)
    (1/100) (1/2)

/-- `isDialable()`: fresh and attempts below the cap. -/
def isDialable (l : Lead) : Bool :=
  decide (l.status = LeadStatus.fresh) &&
    decide (l.dialAttempts < l.maxDialAttempts)

/-- `isRedialable()`: contacted and attempts below the widened cap. -/
def isRedialable (l : Lead) : Bool :=
  decide (l.status = LeadStatus.contacted) &&
    decide (l.dialAttempts < l.maxDialAttempts + 2)

/-- `recordDial(timestamp)`: increments attempts, timestamps, and flips
the status to `exhausted` once attempts reach `maxDialAttempts`. -/
def recordDial (l : Lead) (timestamp : ℤ) : Lead :=
  { l with
    dialAttempts := l.dialAttempts + 1
    lastDialedAt := some timestamp
    status :=
      if l.dialAttempts + 1 ≥ l.maxDialAttempts then LeadStatus.exhausted
      else l.status }

/-- `recordContact()`. -/
def recordContact (l : Lead) : Lead := { l with status := LeadStatus.contacted }

/-- `recordConversion(timestamp)`. -/
def recordConversion (l : Lead) (timestamp : ℤ) : Lead :=
  { l with status := LeadStatus.converted, convertedAt := some timestamp }

/-- `markDNC()`. -/
def markDNC (l : Lead) : Lead := { l with status := LeadStatus.dnc }

end Lead

/-- One mutating `Lead` operation (the timestamps are the `Date.now()`
values in effect at the call). -/
inductive LeadOp where
  | recordDial (timestamp : ℤ)
  | recordContact
  | recordConversion (timestamp : ℤ)
  | markDNC
deriving DecidableEq

def Lead.applyOp (l : Lead) : LeadOp → Lead
  | LeadOp.recordDial ts => l.recordDial ts
  | LeadOp.recordContact => l.recordContact
  | LeadOp.recordConversion ts => l.recordConversion ts
  | LeadOp.markDNC => l.markDNC

def Lead.applyOps (l : Lead) : List LeadOp → Lead
  | [] => l
  | op :: rest => (l.applyOp op).applyOps rest

/-- A freshly generated lead with the source defaults (the jitter draws
taken at 1/2, which leaves the base probabilities unchanged). -/
def sampleLead : Lead :=
  { id := "lead_1"
    sourceId := "standard"
    baseAnswerProbability := 9/50
    baseConversionProbability := 7/100
    intentMultiplier := 1
    complianceRisk := 1/10
    freshnessDecayPerDay := 1/100
    createdAt := 0
    lastDialedAt := none
    dialAttempts := 0
    maxDialAttempts := 3
    preferredHours := [10, 11, 14, 15]
    status := LeadStatus.fresh
    convertedAt := none }

/-- C3 counterexample: a fresh lead dialed once, contacted, and redialed
twice (each redial permitted by `isRedialable`) moves from status
`contacted` to `exhausted` when the third dial reaches `maxDialAttempts`;
and a converted lead is moved to `dnc` by `markDNC`, so no path of the
claimed monotone shape covers these transitions. -/
theorem lead_contacted_to_exhausted_counterexample :
    (sampleLead.applyOps [LeadOp.recordDial 1, LeadOp.recordContact,
        LeadOp.recordDial 2]).status = LeadStatus.contacted ∧
    (sampleLead.applyOps [LeadOp.recordDial 1, LeadOp.recordContact,
        LeadOp.recordDial 2]).isRedialable = true ∧
    (sampleLead.applyOps [LeadOp.recordDial 1, LeadOp.recordContact,
        LeadOp.recordDial 2, LeadOp.recordDial 3]).status =
      LeadStatus.exhausted ∧
    (sampleLead.applyOps [LeadOp.recordConversion 5]).status =
      LeadStatus.converted ∧
    (sampleLead.applyOps [LeadOp.recordConversion 5,
        LeadOp.markDNC]).status = LeadStatus.dnc :=
  ⟨rfl, rfl, rfl, rfl, rfl⟩

/-- C3 (amended): the permanent part of the monotonicity invariant is
that no operation ever returns a lead to status `fresh`; beyond that each
mutating operation acts on the status exactly as follows — `recordDial`
flips the status (whatever it is) to `exhausted` exactly when the
incremented `dialAttempts` reach `maxDialAttempts` and otherwise leaves it
unchanged, `recordContact` sets `contacted`, `recordConversion` sets
`converted` and `markDNC` sets `dnc`, each regardless of the previous
status.  In particular a contacted lead does move to `exhausted` when a
redial crosses the attempt threshold, and the claimed fresh →
contacted/exhausted → converted/dnc monotone paths do not hold for
arbitrary operation sequences. -/
theorem lead_status_transition_characterization :
    (∀ (l : Lead) (ops : List LeadOp), l.status ≠ LeadStatus.fresh →
        (l.applyOps ops).status ≠ LeadStatus.fresh) ∧
    (∀ (l : Lead) (ts : ℤ), (l.recordDial ts).status =
        (if l.dialAttempts + 1 ≥ l.maxDialAttempts then LeadStatus.exhausted
         else l.status)) ∧
    (∀ l : Lead, l.recordContact.status = LeadStatus.contacted) ∧
    (∀ (l : Lead) (ts : ℤ),
        (l.recordConversion ts).status = LeadStatus.converted) ∧
    (∀ l : Lead, l.markDNC.status = LeadStatus.dnc) := by
  refine ⟨?_, fun l ts => rfl, fun l => rfl, fun l ts => rfl, fun l => rfl⟩
  intro l ops
  induction ops generalizing l with
  | nil => exact fun h => h
  | cons op rest ih =>
    intro h
    apply ih
    cases op with
    | recordDial ts =>
      simp only [Lead.applyOp, Lead.recordDial]
      split <;> simp_all
    | recordContact => simp [Lead.applyOp, Lead.recordContact]
    | recordConversion ts => simp [Lead.applyOp, Lead.recordConversion]
    | markDNC => simp [Lead.applyOp, Lead.markDNC]

theorem lead_status_transition_witness :
    sampleLead.recordContact.status ≠ LeadStatus.fresh ∧
      ((sampleLead.recordContact).applyOps
        [LeadOp.recordDial 1, LeadOp.recordDial 2]).status ≠
        LeadStatus.fresh :=
  ⟨by simp [sampleLead, Lead.recordContact],
    lead_status_transition_characterization.1 sampleLead.recordContact
      [LeadOp.recordDial 1, LeadOp.recordDial 2]
      (by simp [sampleLead, Lead.recordContact])⟩

/-! ### Dialer / DialerManager (src/models/Dialer.js)

Numeric config fields go through `config.x || default` in the
constructor: `undefined` and `0` both fall back, so a missing field is
modelled as the value 0. -/

structure DialerConfig where
  id : String
  name : String
  description : String := ""
  tier : ℤ := 0
  dialsPerMinutePerAgent : ℚ := 0
  connectRateMultiplier : ℚ := 0
  qaAssistMultiplier : ℚ := 0
  ahtReductionFactor : ℚ := 0
  agentOccupancyTarget : ℚ := 0
  abandonmentRate : ℚ := 0
  spamRiskMultiplier : ℚ := 0
  costPerAgentPerDay : ℚ := 0
  unlockCost : ℚ := 0
  prerequisites : List String := []
deriving DecidableEq

structure Dialer where
  id : String
  name : String
  description : String
  tier : ℤ
  dialsPerMinutePerAgent : ℚ
  connectRateMultiplier : ℚ
  qaAssistMultiplier : ℚ
  ahtReductionFactor : ℚ
  agentOccupancyTarget : ℚ
  abandonmentRate : ℚ
  spamRiskMultiplier : ℚ
  costPerAgentPerDay : ℚ
  unlockCost : ℚ
  prerequisites : List String
  unlocked : Bool
deriving DecidableEq

namespace Dialer

/-- `new Dialer(config)`. -/
def ofConfig (c : DialerConfig) : Dialer :=
  { id := c.id
    name := c.name
    description := c.description
    tier := if c.tier = 0 then 1 else c.tier
    dialsPerMinutePerAgent :=
      if c.dialsPerMinutePerAgent = 0 then 6 else c.dialsPerMinutePerAgent
    connectRateMultiplier :=
      if c.connectRateMultiplier = 0 then 1 else c.connectRateMultiplier
    qaAssistMultiplier :=
      if c.qaAssistMultiplier = 0 then 1 else c.qaAssistMultiplier
    ahtReductionFactor := c.ahtReductionFactor
    agentOccupancyTarget :=
      if c.agentOccupancyTarget = 0 then 1/2 else c.agentOccupancyTarget
    abandonmentRate := c.abandonmentRate
    spamRiskMultiplier :=
      if c.spamRiskMultiplier = 0 then 1 else c.spamRiskMultiplier
    costPerAgentPerDay := c.costPerAgentPerDay
    unlockCost := c.unlockCost
    prerequisites := c.prerequisites
    unlocked := decide (c.unlockCost = 0) }

def getDialIntervalSeconds (d : Dialer) : ℚ := 60 / d.dialsPerMinutePerAgent

/-- `canUnlock(unlockedDialers)`: locked and every prerequisite id in the
unlocked set. -/
def canUnlock (d : Dialer) (unlockedDialers : List String) : Bool :=
  if d.unlocked then false
  else d.prerequisites.all (fun p => unlockedDialers.contains p)

def getDailyCost (d : Dialer) (agentCount : ℚ) : ℚ :=
  d.costPerAgentPerDay * agentCount

/-- `shouldAbandon(randomFn)` from its single draw. -/
def shouldAbandon (d : Dialer) (randDraw : ℚ) : Bool :=
  decide (randDraw < d.abandonmentRate)

end Dialer

structure DialerManager where
  dialers : List Dialer
  activeDialerId : String
deriving DecidableEq

namespace DialerManager

/-- `new DialerManager()`. -/
def init : DialerManager := ⟨[], "manual"⟩

/-- `this.dialers.get(id)` (a JS `Map` keyed by unique ids, kept in
insertion order). -/
def getDialer (m : DialerManager) (id : String) : Option Dialer :=
  m.dialers.find? (fun d => d.id == id)

/-- `addDialer(dialer)` = `Map.set`: replace an existing entry in place,
otherwise append. -/
def addDialer (m : DialerManager) (d : Dialer) : DialerManager :=
  if m.dialers.any (fun e => e.id == d.id) then
    { m with dialers := m.dialers.map (fun e => if e.id == d.id then d else e) }
  else
    { m with dialers := m.dialers ++ [d] }

def getActiveDialer (m : DialerManager) : Option Dialer :=
  m.getDialer m.activeDialerId

/-- `setActiveDialer(dialerId)`: returns the success flag together with
the updated manager. -/
def setActiveDialer (m : DialerManager) (id : String) :
    Bool × DialerManager :=
  match m.getDialer id with
  | some d =>
    if d.unlocked then (true, { m with activeDialerId := id }) else (false, m)
  | none => (false, m)

/-- The ids of the currently unlocked dialers (the `unlockedSet` built by
`unlockDialer`). -/
def getUnlockedIds (m : DialerManager) : List String :=
  (m.dialers.filter (fun d => d.unlocked)).map (fun d => d.id)

/-- The flag update performed by a successful `unlockDialer` (mutating
the single `Map` entry with the given id in place). -/
def setUnlockedFlag (ds : List Dialer) (id : String) : List Dialer :=
  ds.map (fun e => if e.id == id then { e with unlocked := true } else e)

/-- `unlockDialer(dialerId)`. -/
def unlockDialer (m : DialerManager) (id : String) : Bool × DialerManager :=
  match m.getDialer id with
  | some d =>
    if d.unlocked then (false, m)
    else if d.canUnlock m.getUnlockedIds then
      (true, { m with dialers := setUnlockedFlag m.dialers id })
    else (false, m)
  | none => (false, m)

end DialerManager

/-- C9: `setActiveDialer` fails and leaves the manager (active id and all
unlock flags) completely unchanged whenever the target dialer is missing
or locked, and succeeds setting only `activeDialerId` when the target
exists and is unlocked; `unlockDialer` succeeds if and only if the dialer
exists, is not already unlocked, and every prerequisite id is already
unlocked — succeeding it sets exactly that dialer's flag, and failing it
changes nothing. -/
theorem dialerManager_setActive_unlock_characterization :
    (∀ (m : DialerManager) (id : String),
      (m.getDialer id = none ∨
        ∃ d, m.getDialer id = some d ∧ d.unlocked = false) →
      m.setActiveDialer id = (false, m)) ∧
    (∀ (m : DialerManager) (id : String) (d : Dialer),
      m.getDialer id = some d → d.unlocked = true →
      m.setActiveDialer id = (true, { m with activeDialerId := id })) ∧
    (∀ (m : DialerManager) (id : String),
      (m.unlockDialer id).1 = true ↔
        ∃ d, m.getDialer id = some d ∧ d.unlocked = false ∧
          ∀ p ∈ d.prerequisites, p ∈ m.getUnlockedIds) ∧
    (∀ (m : DialerManager) (id : String),
      (m.unlockDialer id).1 = true →
      (m.unlockDialer id).2 =
        { m with dialers := DialerManager.setUnlockedFlag m.dialers id }) ∧
    (∀ (m : DialerManager) (id : String),
      (m.unlockDialer id).1 = false → (m.unlockDialer id).2 = m) := by
  refine ⟨?_, ?_, ?_, ?_, ?_⟩
  · intro m id h
    rcases h with h | ⟨d, hd, hu⟩
    · simp [DialerManager.setActiveDialer, h]
    · simp [DialerManager.setActiveDialer, hd, hu]
  · intro m id d hd hu
    simp [DialerManager.setActiveDialer, hd, hu]
  · intro m id
    cases hd : m.getDialer id with
    | none => simp [DialerManager.unlockDialer, hd]
    | some d =>
      cases hu : d.unlocked with
      | true => simp [DialerManager.unlockDialer, hd, hu]
      | false =>
        by_cases hall : ∀ p ∈ d.prerequisites, p ∈ m.getUnlockedIds
        · simp [DialerManager.unlockDialer, Dialer.canUnlock, hd, hu]
          rw [if_pos hall]
          simp only [true_iff]
          exact hall
        · simp [DialerManager.unlockDialer, Dialer.canUnlock, hd, hu, hall]
  · intro m id h
    cases hd : m.getDialer id with
    | none => simp [DialerManager.unlockDialer, hd] at h
    | some d =>
      cases hu : d.unlocked with
      | true => simp [DialerManager.unlockDialer, hd, hu] at h
      | false =>
        by_cases hall : ∀ p ∈ d.prerequisites, p ∈ m.getUnlockedIds
        · simp [DialerManager.unlockDialer, Dialer.canUnlock, hd, hu]
          rw [if_pos hall]
        · simp [DialerManager.unlockDialer, Dialer.canUnlock, hd, hu,
            hall] at h
  · intro m id h
    cases hd : m.getDialer id with
    | none => simp [DialerManager.unlockDialer, hd]
    | some d =>
      cases hu : d.unlocked with
      | true => simp [DialerManager.unlockDialer, hd, hu]
      | false =>
        by_cases hall : ∀ p ∈ d.prerequisites, p ∈ m.getUnlockedIds
        · simp [DialerManager.unlockDialer, Dialer.canUnlock, hd, hu] at h
          rw [if_pos hall] at h
          simp at h
        · simp [DialerManager.unlockDialer, Dialer.canUnlock, hd, hu, hall]

/-! ### Agent (src/models/Agent.js)

The JS state strings are the constructors below (`'break'` is `onBreak`,
`'on_call'` is `onCall`, `'wrap_up'` is `wrapUp`). -/

inductive AgentState where
  | idle
  | dialing
  | onCall
  | wrapUp
  | onBreak
  | training
  | coaching
  | unavailable
deriving DecidableEq

/-- The `currentCall` payload: the engine stores `{lead, duration}` on a
call and `{trainingSkill}` during training. -/
structure CallData where
  lead : Option Lead := none
  duration : Option ℚ := none
  trainingSkill : Option String := none
deriving DecidableEq

structure TrainingXP where
  skillTalktrack : ℚ
  speedWrapup : ℚ
  complianceDiscipline : ℚ
  resilience : ℚ
  charisma : ℚ
  consistency : ℚ
deriving DecidableEq

def emptyTrainingXP : TrainingXP := ⟨0, 0, 0, 0, 0, 0⟩

structure AgentDailyStats where
  dials : ℤ
  contacts : ℤ
  conversions : ℤ
  talkTimeSeconds : ℚ
  revenue : ℚ
  complaints : ℤ
deriving DecidableEq

/-- `_createEmptyDailyStats()`. -/
def emptyAgentDailyStats : AgentDailyStats := ⟨0, 0, 0, 0, 0, 0⟩

structure AgentLifetimeStats where
  totalCalls : ℤ
  totalConversions : ℤ
  totalTalkTime : ℚ
  daysWorked : ℤ
deriving DecidableEq

structure Agent where
  id : String
  name : String
  skillTalktrack : ℚ
  speedWrapup : ℚ
  complianceDiscipline : ℚ
  resilience : ℚ
  charisma : ℚ
  consistency : ℚ
  fatigue : ℚ
  morale : ℚ
  state : AgentState
  stateTimeRemaining : ℚ
  currentCall : Option CallData
  trainingXP : TrainingXP
  dailyStats : AgentDailyStats
  lifetimeStats : AgentLifetimeStats
  hiredAt : ℤ
deriving DecidableEq

def agentFirstNames : List String :=
  ["Alex", "Jordan", "Taylor", "Morgan", "Casey", "Riley", "Quinn", "Avery",
   "Jamie", "Drew", "Cameron", "Skyler", "Reese", "Parker", "Blake", "Hayden",
   "Mike", "Sarah", "Chris", "Jessica", "David", "Emily", "James", "Ashley",
   "Marcus", "Linda", "Kevin", "Michelle", "Brian", "Stephanie", "Tony",
   "Rachel"]

def agentLastInitials : List String :=
  ["A", "B", "C", "D", "E", "F", "G", "H", "I", "J", "K", "L", "M",
   "N", "O", "P", "Q", "R", "S", "T", "U", "V", "W", "X", "Y", "Z"]

/-- `generateAgentName(randomFn)` from its two draws. -/
def generateAgentName (d0 d1 : ℚ) : String :=
  let firstName := agentFirstNames.getD (⌊d0 * 32⌋).toNat ""
  let lastInitial := agentLastInitials.getD (⌊d1 * 26⌋).toNat ""
  firstName ++ " " ++ lastInitial ++ "."

/-- `_generateStat(base, variance, randomFn)` from its draw. -/
def generateStat (base variance d : ℚ) : ℚ :=
  jsClamp (base + (d - 1/2) * 2 * variance) (1/10) (9/10)

/-- The `baseStats` constructor argument; the constructor reads each stat
with `??`, so only `undefined` (here `none`) falls back. -/
structure BaseStats where
  skillTalktrack : Option ℚ := none
  speedWrapup : Option ℚ := none
  complianceDiscipline : Option ℚ := none
  resilience : Option ℚ := none
  charisma : Option ℚ := none
  consistency : Option ℚ := none
deriving DecidableEq

namespace Agent

/-- The `Agent` constructor: `draws` supplies the sequential values of the
injected `randomFn` (two name draws only when no nonempty name is given,
then one draw per stat), `now` is `Date.now()`. -/
def mkNew (id : String) (name : Option String) (baseStats : BaseStats)
    (statVariance : ℚ) (draws : ℕ → ℚ) (now : ℤ) : Agent :=
  let named : String × ℕ :=
    match name with
    | some n =>
      if n = "" then (generateAgentName (draws 0) (draws 1), 2) else (n, 0)
    | none => (generateAgentName (draws 0) (draws 1), 2)
  let u := named.2
  { id := id
    name := named.1
    skillTalktrack :=
      generateStat (baseStats.skillTalktrack.getD (2/5)) statVariance (draws u)
    speedWrapup :=
      generateStat (baseStats.speedWrapup.getD (2/5)) statVariance
        (draws (u + 1))
    complianceDiscipline :=
      generateStat (baseStats.complianceDiscipline.getD (1/2)) statVariance
        (draws (u + 2))
    resilience :=
      generateStat (baseStats.resilience.getD (1/2)) statVariance
        (draws (u + 3))
    charisma :=
      generateStat (baseStats.charisma.getD (3/10)) statVariance
        (draws (u + 4))
    consistency :=
      generateStat (baseStats.consistency.getD (2/5)) statVariance
        (draws (u + 5))
    fatigue := 0
    morale := 7/10
    state := AgentState.idle
    stateTimeRemaining := 0
    currentCall := none
    trainingXP := emptyTrainingXP
    dailyStats := emptyAgentDailyStats
    lifetimeStats := ⟨0, 0, 0, 0⟩
    hiredAt := now }

/-- `resetDailyStats()`. -/
def resetDailyStats (a : Agent) : Agent :=
  { a with
    dailyStats := emptyAgentDailyStats
    lifetimeStats :=
      { a.lifetimeStats with daysWorked := a.lifetimeStats.daysWorked + 1 } }

/-- `isAvailable()`. -/
def isAvailable (a : Agent) : Bool := decide (a.state = AgentState.idle)

/-- `isWorking()`. -/
def isWorking (a : Agent) : Bool :=
  decide (a.state = AgentState.idle) || decide (a.state = AgentState.dialing)
    || decide (a.state = AgentState.onCall)
    || decide (a.state = AgentState.wrapUp)

/-- `startDialing(dialDurationSeconds)`. -/
def startDialing (a : Agent) (dialDurationSeconds : ℚ) : Agent :=
  { a with state := AgentState.dialing
           stateTimeRemaining := dialDurationSeconds }

/-- `startCall(callDurationSeconds, callData)`. -/
def startCall (a : Agent) (callDurationSeconds : ℚ) (callData : CallData) :
    Agent :=
  { a with
    state := AgentState.onCall
    stateTimeRemaining := callDurationSeconds
    currentCall := some callData
    dailyStats :=
      { a.dailyStats with contacts := a.dailyStats.contacts + 1 }
    lifetimeStats :=
      { a.lifetimeStats with totalCalls := a.lifetimeStats.totalCalls + 1 } }

/-- `startWrapUp(wrapUpSeconds)`: accumulates the just-ended call's
duration (`currentCall.duration || 0`) and clears the call. -/
def startWrapUp (a : Agent) (wrapUpSeconds : ℚ) : Agent :=
  let dur : ℚ :=
    match a.currentCall with
    | some c => c.duration.getD 0
    | none => 0
  let withTime :=
    match a.currentCall with
    | some _ =>
      { a with
        dailyStats := { a.dailyStats with
          talkTimeSeconds := a.dailyStats.talkTimeSeconds + dur }
        lifetimeStats := { a.lifetimeStats with
          totalTalkTime := a.lifetimeStats.totalTalkTime + dur } }
    | none => a
  { withTime with
    state := AgentState.wrapUp
    stateTimeRemaining := wrapUpSeconds
    currentCall := none }

/-- `completeWrapUp()`. -/
def completeWrapUp (a : Agent) : Agent :=
  { a with state := AgentState.idle, stateTimeRemaining := 0 }

/-- `startBreak(breakDurationSeconds)`. -/
def startBreak (a : Agent) (breakDurationSeconds : ℚ) : Agent :=
  { a with state := AgentState.onBreak
           stateTimeRemaining := breakDurationSeconds }

/-- `startTraining(skillToTrain, trainingDurationSeconds)`. -/
def startTraining (a : Agent) (skillToTrain : String)
    (trainingDurationSeconds : ℚ) : Agent :=
  { a with
    state := AgentState.training
    stateTimeRemaining := trainingDurationSeconds
    currentCall := some { trainingSkill := some skillToTrain } }

/-- `recordConversion(revenue)`. -/
def recordConversion (a : Agent) (revenue : ℚ) : Agent :=
  { a with
    dailyStats := { a.dailyStats with
      conversions := a.dailyStats.conversions + 1
      revenue := a.dailyStats.revenue + revenue }
    lifetimeStats := { a.lifetimeStats with
      totalConversions := a.lifetimeStats.totalConversions + 1 } }

/-- `recordDial()`. -/
def recordDial (a : Agent) : Agent :=
  { a with dailyStats :=
    { a.dailyStats with dials := a.dailyStats.dials + 1 } }

/-- `recordComplaint()`. -/
def recordComplaint (a : Agent) : Agent :=
  { a with dailyStats :=
    { a.dailyStats with complaints := a.dailyStats.complaints + 1 } }

/-- `adjustFatigue(delta)`. -/
def adjustFatigue (a : Agent) (delta : ℚ) : Agent :=
  { a with fatigue := jsClamp (a.fatigue + delta) 0 1 }

/-- `adjustMorale(delta)`. -/
def adjustMorale (a : Agent) (delta : ℚ) : Agent :=
  { a with morale := jsClamp (a.morale + delta) 0 1 }

/-- Dynamic skill read `agent[skill] || 0` (unknown property names read
as `undefined`, hence 0). -/
def skillValue (a : Agent) (skill : String) : ℚ :=
  if skill = "skillTalktrack" then a.skillTalktrack
  else if skill = "speedWrapup" then a.speedWrapup
  else if skill = "complianceDiscipline" then a.complianceDiscipline
  else if skill = "resilience" then a.resilience
  else if skill = "charisma" then a.charisma
  else if skill = "consistency" then a.consistency
  else 0

/-- `addTrainingXP(skill, xp)`: only known skill keys accumulate. -/
def addTrainingXP (a : Agent) (skill : String) (xp : ℚ) : Agent :=
  if skill = "skillTalktrack" then
    { a with trainingXP := { a.trainingXP with
      skillTalktrack := a.trainingXP.skillTalktrack + xp } }
  else if skill = "speedWrapup" then
    { a with trainingXP := { a.trainingXP with
      speedWrapup := a.trainingXP.speedWrapup + xp } }
  else if skill = "complianceDiscipline" then
    { a with trainingXP := { a.trainingXP with
      complianceDiscipline := a.trainingXP.complianceDiscipline + xp } }
  else if skill = "resilience" then
    { a with trainingXP := { a.trainingXP with
      resilience := a.trainingXP.resilience + xp } }
  else if skill = "charisma" then
    { a with trainingXP := { a.trainingXP with
      charisma := a.trainingXP.charisma + xp } }
  else if skill = "consistency" then
    { a with trainingXP := { a.trainingXP with
      consistency := a.trainingXP.consistency + xp } }
  else a

/-- `getConversionMultiplier()`. -/
def getConversionMultiplier (a : Agent) : ℚ :=
  calculateAgentConversionMultiplier a.skillTalktrack a.charisma a.consistency

end Agent

/-- The document emitted by `Agent.toJSON()`.  Note: it has no
`currentCall` field. -/
structure AgentJSON where
  id : String
  name : String
  skillTalktrack : ℚ
  speedWrapup : ℚ
  complianceDiscipline : ℚ
  resilience : ℚ
  charisma : ℚ
  consistency : ℚ
  fatigue : ℚ
  morale : ℚ
  state : AgentState
  stateTimeRemaining : ℚ
  trainingXP : TrainingXP
  dailyStats : AgentDailyStats
  lifetimeStats : AgentLifetimeStats
  hiredAt : ℤ
deriving DecidableEq

/-- `Agent.toJSON()`. -/
def Agent.toJSON (a : Agent) : AgentJSON :=
  { id := a.id
    name := a.name
    skillTalktrack := a.skillTalktrack
    speedWrapup := a.speedWrapup
    complianceDiscipline := a.complianceDiscipline
    resilience := a.resilience
    charisma := a.charisma
    consistency := a.consistency
    fatigue := a.fatigue
    morale := a.morale
    state := a.state
    stateTimeRemaining := a.stateTimeRemaining
    trainingXP := a.trainingXP
    dailyStats := a.dailyStats
    lifetimeStats := a.lifetimeStats
    hiredAt := a.hiredAt }

/-- `Agent.fromJSON(data)`: constructs via `new Agent({id, name,
baseStats: {}, statVariance: 0})` (whose ambient `Math.random` draws are
`draws` and whose `Date.now()` is `now`) and then overrides the saved
fields.  `currentCall` is not overridden: it stays the constructor's
`null`. -/
def Agent.fromJSON (data : AgentJSON) (draws : ℕ → ℚ) (now : ℤ) : Agent :=
  let agent := Agent.mkNew data.id (some data.name) {} 0 draws now
  { agent with
    skillTalktrack := data.skillTalktrack
    speedWrapup := data.speedWrapup
    complianceDiscipline := data.complianceDiscipline
    resilience := data.resilience
    charisma := data.charisma
    consistency := data.consistency
    fatigue := data.fatigue
    morale := data.morale
    state := data.state
    stateTimeRemaining := data.stateTimeRemaining
    trainingXP := data.trainingXP
    dailyStats := data.dailyStats
    lifetimeStats := data.lifetimeStats
    hiredAt := data.hiredAt }

/-- A concrete agent currently on a call (so `currentCall` is populated). -/
def sampleAgent : Agent :=
  { id := "agent_1"
    name := "Casey Q."
    skillTalktrack := 2/5
    speedWrapup := 2/5
    complianceDiscipline := 1/2
    resilience := 1/2
    charisma := 3/10
    consistency := 2/5
    fatigue := 1/10
    morale := 7/10
    state := AgentState.onCall
    stateTimeRemaining := 30
    currentCall := some { duration := some 30 }
    trainingXP := emptyTrainingXP
    dailyStats := emptyAgentDailyStats
    lifetimeStats := ⟨1, 0, 0, 0⟩
    hiredAt := 0 }

/-- C6 counterexample: `Agent.toJSON` omits the `currentCall` payload and
`Agent.fromJSON` leaves it at the constructor's `null`, so an agent that
is on a call does not round-trip: the restored agent's `currentCall` is
`none` while the original's is populated. -/
theorem agent_roundtrip_currentCall_counterexample :
    (Agent.fromJSON sampleAgent.toJSON (fun _ => 0) 0).currentCall = none ∧
      sampleAgent.currentCall = some { duration := some 30 } ∧
      (none : Option CallData) ≠ some { duration := some 30 } := by
  refine ⟨rfl, rfl, by simp⟩

/-- C6 (amended): for every agent whose display name is nonempty (every
constructed agent: the constructor always produces a nonempty name),
`Agent.fromJSON(Agent.toJSON(a))` reproduces identity, name, the six
skill stats, fatigue, morale, state, `stateTimeRemaining`, the per-skill
training XP, the daily stats and the lifetime stats exactly — every field
the claim enumerates except the optional current-call payload, which the
document does not contain: the restored agent's `currentCall` is always
`null`. -/
theorem agent_roundtrip_all_fields_except_currentCall
    (a : Agent) (draws : ℕ → ℚ) (now : ℤ) (h : a.name ≠ "") :
    (Agent.fromJSON a.toJSON draws now).id = a.id ∧
    (Agent.fromJSON a.toJSON draws now).name = a.name ∧
    (Agent.fromJSON a.toJSON draws now).skillTalktrack = a.skillTalktrack ∧
    (Agent.fromJSON a.toJSON draws now).speedWrapup = a.speedWrapup ∧
    (Agent.fromJSON a.toJSON draws now).complianceDiscipline =
      a.complianceDiscipline ∧
    (Agent.fromJSON a.toJSON draws now).resilience = a.resilience ∧
    (Agent.fromJSON a.toJSON draws now).charisma = a.charisma ∧
    (Agent.fromJSON a.toJSON draws now).consistency = a.consistency ∧
    (Agent.fromJSON a.toJSON draws now).fatigue = a.fatigue ∧
    (Agent.fromJSON a.toJSON draws now).morale = a.morale ∧
    (Agent.fromJSON a.toJSON draws now).state = a.state ∧
    (Agent.fromJSON a.toJSON draws now).stateTimeRemaining =
      a.stateTimeRemaining ∧
    (Agent.fromJSON a.toJSON draws now).trainingXP = a.trainingXP ∧
    (Agent.fromJSON a.toJSON draws now).dailyStats = a.dailyStats ∧
    (Agent.fromJSON a.toJSON draws now).lifetimeStats = a.lifetimeStats ∧
    (Agent.fromJSON a.toJSON draws now).currentCall = none := by
  refine ⟨rfl, ?_, rfl, rfl, rfl, rfl, rfl, rfl, rfl, rfl, rfl, rfl, rfl,
    rfl, rfl, rfl⟩
  simp [Agent.fromJSON, Agent.mkNew, Agent.toJSON, h]

theorem agent_roundtrip_witness :
    sampleAgent.name ≠ "" ∧
      (Agent.fromJSON sampleAgent.toJSON (fun _ => 0) 0).name =
        sampleAgent.name :=
  ⟨by simp [sampleAgent],
    (agent_roundtrip_all_fields_except_currentCall sampleAgent (fun _ => 0) 0
      (by simp [sampleAgent])).2.1⟩

/-! ### LeadSource / LeadPool (src/models/Lead.js)

Config numeric fields go through `config.x || default`, so a missing
field is modelled as 0 (both are falsy). -/

structure LeadSourceConfig where
  id : String
  name : String
  description : String := ""
  tier : ℤ := 0
  costPerLead : ℚ := 0
  intentMultiplier : ℚ := 0
  freshnessDecayPerDay : ℚ := 0
  complianceRisk : ℚ := 0
  supplyPerDay : ℚ := 0
  baseAnswerProbability : ℚ := 0
  baseConversionProbability : ℚ := 0
  unlockCost : ℚ := 0
  prerequisites : List String := []
deriving DecidableEq

structure LeadSource where
  id : String
  name : String
  description : String
  tier : ℤ
  costPerLead : ℚ
  intentMultiplier : ℚ
  freshnessDecayPerDay : ℚ
  complianceRisk : ℚ
  supplyPerDay : ℚ
  baseAnswerProbability : ℚ
  baseConversionProbability : ℚ
  unlockCost : ℚ
  prerequisites : List String
  unlocked : Bool
deriving DecidableEq

namespace LeadSource

/-- `new LeadSource(config)`. -/
def ofConfig (c : LeadSourceConfig) : LeadSource :=
  { id := c.id
    name := c.name
    description := c.description
    tier := if c.tier = 0 then 1 else c.tier
    costPerLead := if c.costPerLead = 0 then 5/2 else c.costPerLead
    intentMultiplier :=
      if c.intentMultiplier = 0 then 1 else c.intentMultiplier
    freshnessDecayPerDay :=
      if c.freshnessDecayPerDay = 0 then 1/100 else c.freshnessDecayPerDay
    complianceRisk := if c.complianceRisk = 0 then 1/10 else c.complianceRisk
    supplyPerDay := if c.supplyPerDay = 0 then 100 else c.supplyPerDay
    baseAnswerProbability :=
      if c.baseAnswerProbability = 0 then 9/50 else c.baseAnswerProbability
    baseConversionProbability :=
      if c.baseConversionProbability = 0 then 7/100
      else c.baseConversionProbability
    unlockCost := c.unlockCost
    prerequisites := c.prerequisites
    unlocked := decide (c.unlockCost = 0) }

/-- `generateLead(leadId, randomFn)`; `now` is the `Date.now()` creation
stamp. -/
def generateLead (s : LeadSource) (leadId : String) (randomFn : ℕ → ℚ)
    (now : ℤ) : Lead :=
  Lead.mkNew
    { id := leadId
      sourceId := s.id
      baseAnswerProbability := s.baseAnswerProbability
      baseConversionProbability := s.baseConversionProbability
      intentMultiplier := s.intentMultiplier
      complianceRisk := s.complianceRisk
      freshnessDecayPerDay := s.freshnessDecayPerDay
      createdAt := now } randomFn

end LeadSource

/-- The `{id, unlocked}` documents emitted by `LeadSource.toJSON` and
`Dialer.toJSON`. -/
structure UnlockFlagJSON where
  id : String
  unlocked : Bool
deriving DecidableEq

def LeadSource.toJSON (s : LeadSource) : UnlockFlagJSON := ⟨s.id, s.unlocked⟩

def Dialer.toJSON (d : Dialer) : UnlockFlagJSON := ⟨d.id, d.unlocked⟩

structure LeadJSON where
  id : String
  sourceId : String
  baseAnswerProbability : ℚ
  baseConversionProbability : ℚ
  intentMultiplier : ℚ
  complianceRisk : ℚ
  freshnessDecayPerDay : ℚ
  createdAt : ℤ
  lastDialedAt : Option ℤ
  dialAttempts : ℕ
  maxDialAttempts : ℕ
  preferredHours : List ℤ
  status : LeadStatus
  convertedAt : Option ℤ
deriving DecidableEq

def Lead.toJSON (l : Lead) : LeadJSON :=
  { id := l.id
    sourceId := l.sourceId
    baseAnswerProbability := l.baseAnswerProbability
    baseConversionProbability := l.baseConversionProbability
    intentMultiplier := l.intentMultiplier
    complianceRisk := l.complianceRisk
    freshnessDecayPerDay := l.freshnessDecayPerDay
    createdAt := l.createdAt
    lastDialedAt := l.lastDialedAt
    dialAttempts := l.dialAttempts
    maxDialAttempts := l.maxDialAttempts
    preferredHours := l.preferredHours
    status := l.status
    convertedAt := l.convertedAt }

/-- `Lead.fromJSON(data)`: runs the constructor on the saved base values
(the constructor re-jitters the stored probabilities with the ambient
`Math.random`, supplied as `draws`) and then overrides the remaining
fields. -/
def Lead.fromJSON (data : LeadJSON) (draws : ℕ → ℚ) : Lead :=
  let lead := Lead.mkNew
    { id := data.id
      sourceId := data.sourceId
      baseAnswerProbability := data.baseAnswerProbability
      baseConversionProbability := data.baseConversionProbability
      intentMultiplier := data.intentMultiplier
      complianceRisk := data.complianceRisk
      freshnessDecayPerDay := data.freshnessDecayPerDay
      createdAt := data.createdAt } draws
  { lead with
    lastDialedAt := data.lastDialedAt
    dialAttempts := data.dialAttempts
    maxDialAttempts := data.maxDialAttempts
    preferredHours := data.preferredHours
    status := data.status
    convertedAt := data.convertedAt }

structure LeadPool where
  leads : List Lead
  sources : List LeadSource
  nextLeadId : ℤ
deriving DecidableEq

structure LeadPoolJSON where
  leads : List LeadJSON
  sources : List UnlockFlagJSON
  nextLeadId : ℤ
deriving DecidableEq

namespace LeadPool

/-- `new LeadPool()`. -/
def init : LeadPool := ⟨[], [], 1⟩

/-- `addSource(source)` = `Map.set`: replace in place or append. -/
def addSource (p : LeadPool) (s : LeadSource) : LeadPool :=
  if p.sources.any (fun e => e.id == s.id) then
    { p with sources := p.sources.map (fun e => if e.id == s.id then s else e) }
  else
    { p with sources := p.sources ++ [s] }

def getSource (p : LeadPool) (id : String) : Option LeadSource :=
  p.sources.find? (fun s => s.id == id)

def getUnlockedSources (p : LeadPool) : List LeadSource :=
  p.sources.filter (fun s => s.unlocked)

/-- `generateLeads(sourceId, count, randomFn)`: each generated lead
consumes four sequential draws of the shared `randomFn`. -/
def generateLeads (p : LeadPool) (sourceId : String) (count : ℕ)
    (draws : ℕ → ℚ) (now : ℤ) : List Lead × LeadPool :=
  match p.getSource sourceId with
  | none => ([], p)
  | some s =>
    if s.unlocked then
      let newLeads := (List.range count).map (fun (i : ℕ) =>
        s.generateLead ("lead_" ++ toString (p.nextLeadId + (i : ℤ)))
          (fun k => draws (4 * i + k)) now)
      (newLeads,
        { p with leads := p.leads ++ newLeads
                 nextLeadId := p.nextLeadId + count })
    else ([], p)

def getDialableLeads (p : LeadPool) : List Lead :=
  p.leads.filter Lead.isDialable

def getRedialableLeads (p : LeadPool) : List Lead :=
  p.leads.filter Lead.isRedialable

def getLead (p : LeadPool) (id : String) : Option Lead :=
  p.leads.find? (fun l => l.id == id)

/-- In-place mutation of the pool entry with the given (unique) id. -/
def updateLead (p : LeadPool) (id : String) (f : Lead → Lead) : LeadPool :=
  { p with leads := p.leads.map (fun l => if l.id == id then f l else l) }

/-- `getNextLead(hourOfDay, randomFn)`: score the dialable (else
redialable, with the 40% penalty) leads, sort by score descending (JS
`Array.sort` is stable), and pick uniformly from the top 20% (at least
one) using the single `randomFn()` draw taken from the engine RNG state
`st`. -/
def getNextLead (p : LeadPool) (hourOfDay now : ℤ) (st : ℤ) :
    Option Lead × ℤ :=
  let dialable := p.getDialableLeads
  let cands := if dialable.isEmpty then p.getRedialableLeads else dialable
  let isRedial := dialable.isEmpty
  if cands.isEmpty then (none, st)
  else
    let scored := cands.map (fun l =>
      let base := l.getAnswerProbability hourOfDay now *
        l.getConversionProbability now
      (l, if isRedial then base * (6/10) else base))
    let sorted := scored.mergeSort (fun a b => decide (b.2 ≤ a.2))
    let topCount := max 1 (⌊(sorted.length : ℚ) * (2/10)⌋).toNat
    let topLeads := sorted.take topCount
    let (v, s') := mulberry32 st
    let index := (⌊v * (topLeads.length : ℚ)⌋).toNat
    match topLeads.get? index with
    | some sl => (some sl.1, s')
    | none => (none, s')

def toJSON (p : LeadPool) : LeadPoolJSON :=
  ⟨p.leads.map Lead.toJSON, p.sources.map LeadSource.toJSON, p.nextLeadId⟩

/-- `loadFromJSON(data, sourceConfigs)`: rebuild the sources from the
configs restoring saved unlock flags, clear and rebuild the leads, and
restore `nextLeadId` (`|| size + 1`). -/
def loadFromJSON (p : LeadPool) (data : LeadPoolJSON)
    (sourceConfigs : List LeadSourceConfig) (draws : ℕ → ℚ) : LeadPool :=
  let withSources := sourceConfigs.foldl (fun acc config =>
    let source := LeadSource.ofConfig config
    let source :=
      match data.sources.find? (fun s => s.id == config.id) with
      | some saved => { source with unlocked := saved.unlocked }
      | none => source
    acc.addSource source) p
  let leads := (data.leads.enum).map (fun e =>
    Lead.fromJSON e.2 (fun k => draws (4 * e.1 + k)))
  { withSources with
    leads := leads
    nextLeadId :=
      if data.nextLeadId = 0 then (leads.length : ℤ) + 1
      else data.nextLeadId }

end LeadPool

/-! ### GameState (src/models/GameState.js)

`activeEvents`/`eventHistory` are consumed only by the excluded scripted
event layer and are not serialized; they are omitted from the model. -/

structure GameTime where
  day : ℤ
  hour : ℤ
  minute : ℤ
  totalMinutes : ℤ
deriving DecidableEq

structure GameDailyStats where
  dials : ℤ
  contacts : ℤ
  conversions : ℤ
  revenue : ℚ
  costs : ℚ
  profit : ℚ
  complaints : ℤ
  abandonments : ℤ
deriving DecidableEq

/-- `_createEmptyDailyStats()`. -/
def emptyGameDailyStats : GameDailyStats := ⟨0, 0, 0, 0, 0, 0, 0, 0⟩

structure GameLifetimeStats where
  totalDials : ℤ
  totalContacts : ℤ
  totalConversions : ℤ
  totalRevenue : ℚ
  totalCosts : ℚ
  daysPlayed : ℤ
deriving DecidableEq

def emptyGameLifetimeStats : GameLifetimeStats := ⟨0, 0, 0, 0, 0, 0⟩

/-- The cached `upgradeEffects` object; every consumer reads a field with
`|| 0`, so an absent entry is identified with the value 0. -/
structure UpgradeEffects where
  answerRateBonus : ℚ := 0
  spamReduction : ℚ := 0
  leadRoutingEfficiency : ℚ := 0
  trainingEfficiency : ℚ := 0
  fatigueRecoveryBonus : ℚ := 0
  fatigueGainReduction : ℚ := 0
deriving DecidableEq

structure GameState where
  cash : ℚ
  reputation : ℚ
  agents : List Agent
  nextAgentId : ℤ
  leadPool : LeadPool
  dialerManager : DialerManager
  upgrades : List (String × ℤ)
  upgradeEffects : UpgradeEffects
  gameTime : GameTime
  dailyStats : GameDailyStats
  lifetimeStats : GameLifetimeStats
  isPaused : Bool
  speedMultiplier : ℚ
deriving DecidableEq

namespace GameState

/-- `new GameState()`. -/
def initial : GameState :=
  { cash := 500
    reputation := 75
    agents := []
    nextAgentId := 1
    leadPool := LeadPool.init
    dialerManager := DialerManager.init
    upgrades := []
    upgradeEffects := {}
    gameTime := ⟨1, 9, 0, 0⟩
    dailyStats := emptyGameDailyStats
    lifetimeStats := emptyGameLifetimeStats
    isPaused := true
    speedMultiplier := 1 }

def getAvailableAgents (st : GameState) : List Agent :=
  st.agents.filter Agent.isAvailable

def getWorkingAgents (st : GameState) : List Agent :=
  st.agents.filter Agent.isWorking

/-- In-place mutation of the agent with the given (unique) id. -/
def updateAgent (st : GameState) (id : String) (f : Agent → Agent) :
    GameState :=
  { st with agents := st.agents.map (fun a => if a.id == id then f a else a) }

/-- `adjustCash(amount)`: positive amounts are revenue, the rest
(including zero) is routed to the cost buckets by absolute value. -/
def adjustCash (st : GameState) (amount : ℚ) : GameState :=
  let st' := { st with cash := st.cash + amount }
  if amount > 0 then
    { st' with
      dailyStats := { st'.dailyStats with
        revenue := st'.dailyStats.revenue + amount }
      lifetimeStats := { st'.lifetimeStats with
        totalRevenue := st'.lifetimeStats.totalRevenue + amount } }
  else
    { st' with
      dailyStats := { st'.dailyStats with
        costs := st'.dailyStats.costs + |amount| }
      lifetimeStats := { st'.lifetimeStats with
        totalCosts := st'.lifetimeStats.totalCosts + |amount| } }

/-- `adjustReputation(amount)`: clamped to [0, 100]. -/
def adjustReputation (st : GameState) (amount : ℚ) : GameState :=
  { st with reputation := jsClamp (st.reputation + amount) 0 100 }

def recordDial (st : GameState) : GameState :=
  { st with
    dailyStats := { st.dailyStats with dials := st.dailyStats.dials + 1 }
    lifetimeStats := { st.lifetimeStats with
      totalDials := st.lifetimeStats.totalDials + 1 } }

def recordContact (st : GameState) : GameState :=
  { st with
    dailyStats := { st.dailyStats with
      contacts := st.dailyStats.contacts + 1 }
    lifetimeStats := { st.lifetimeStats with
      totalContacts := st.lifetimeStats.totalContacts + 1 } }

def recordConversion (st : GameState) (revenue : ℚ) : GameState :=
  let st' := { st with
    dailyStats := { st.dailyStats with
      conversions := st.dailyStats.conversions + 1 }
    lifetimeStats := { st.lifetimeStats with
      totalConversions := st.lifetimeStats.totalConversions + 1 } }
  st'.adjustCash revenue

def recordComplaint (st : GameState) : GameState :=
  { st with dailyStats := { st.dailyStats with
    complaints := st.dailyStats.complaints + 1 } }

def recordAbandonment (st : GameState) : GameState :=
  { st with dailyStats := { st.dailyStats with
    abandonments := st.dailyStats.abandonments + 1 } }

/-- The per-agent work done by `endDay()`: `resetDailyStats()` followed
by the flat fatigue recovery `max(0, fatigue − 0.3)`. -/
def agentEndDay (a : Agent) : Agent :=
  let a' := a.resetDailyStats
  { a' with fatigue := max 0 (a'.fatigue - 3/10) }

/-- `endDay()`: returns the pre-reset snapshot (with `profit` filled in)
together with the updated state. -/
def endDay (st : GameState) : GameDailyStats × GameState :=
  let ds := { st.dailyStats with
    profit := st.dailyStats.revenue - st.dailyStats.costs }
  let lt := { st.lifetimeStats with
    daysPlayed := st.lifetimeStats.daysPlayed + 1 }
  let agents := st.agents.map agentEndDay
  let gt := { st.gameTime with
    day := st.gameTime.day + 1
    hour := 9
    minute := 0 }
  (ds, { st with
    dailyStats := emptyGameDailyStats
    lifetimeStats := lt
    agents := agents
    gameTime := gt })

/-- The `while (minute >= 60)` roll of `advanceTime`. -/
def advanceLoop (minute hour : ℤ) : ℤ × ℤ :=
  if h : minute ≥ 60 then advanceLoop (minute - 60) (hour + 1)
  else (minute, hour)
termination_by minute.toNat
decreasing_by omega

/-- `advanceTime(minutes)`: roll minute → hour, then trigger `endDay()`
when the updated hour reaches 24. -/
def advanceTime (st : GameState) (minutes : ℤ) : GameState :=
  let rolled := advanceLoop (st.gameTime.minute + minutes) st.gameTime.hour
  let st' := { st with gameTime := { st.gameTime with
    minute := rolled.1
    hour := rolled.2
    totalMinutes := st.gameTime.totalMinutes + minutes } }
  if rolled.2 ≥ 24 then (st'.endDay).2 else st'

/-- `isWorkHours()`. -/
def isWorkHours (st : GameState) : Bool :=
  decide (st.gameTime.hour ≥ 9) && decide (st.gameTime.hour < 17)

/-- `getUpgradeLevel(upgradeId)` (`|| 0`). -/
def getUpgradeLevel (st : GameState) (upgradeId : String) : ℤ :=
  (((st.upgrades.find? (fun u => u.1 == upgradeId)).map
    (fun u => u.2)).getD 0)

end GameState

/-- The document emitted by `GameState.toJSON()`. -/
structure DialerManagerJSON where
  dialers : List UnlockFlagJSON
  activeDialerId : String
deriving DecidableEq

def DialerManager.toJSON (m : DialerManager) : DialerManagerJSON :=
  ⟨m.dialers.map Dialer.toJSON, m.activeDialerId⟩

/-- `DialerManager.loadFromJSON(data, dialerConfigs)`. -/
def DialerManager.loadFromJSON (m : DialerManager)
    (data : DialerManagerJSON) (dialerConfigs : List DialerConfig) :
    DialerManager :=
  let m' := dialerConfigs.foldl (fun acc config =>
    let d := Dialer.ofConfig config
    let d :=
      match data.dialers.find? (fun e => e.id == config.id) with
      | some saved => { d with unlocked := saved.unlocked }
      | none => d
    acc.addDialer d) m
  { m' with activeDialerId :=
    if data.activeDialerId = "" then "manual" else data.activeDialerId }

structure GameStateJSON where
  version : ℤ
  cash : ℚ
  reputation : ℚ
  agents : List AgentJSON
  nextAgentId : ℤ
  leadPool : LeadPoolJSON
  dialerManager : DialerManagerJSON
  upgrades : List (String × ℤ)
  gameTime : GameTime
  dailyStats : GameDailyStats
  lifetimeStats : GameLifetimeStats
  savedAt : ℤ
deriving DecidableEq

/-- The configuration catalogs passed to `loadFromJSON`. -/
structure Configs where
  leadSources : List LeadSourceConfig
  dialers : List DialerConfig
deriving DecidableEq

/-- `GameState.toJSON()`; `savedAt` is `Date.now()`. -/
def GameState.toJSON (st : GameState) (savedAt : ℤ) : GameStateJSON :=
  { version := 1
    cash := st.cash
    reputation := st.reputation
    agents := st.agents.map Agent.toJSON
    nextAgentId := st.nextAgentId
    leadPool := st.leadPool.toJSON
    dialerManager := st.dialerManager.toJSON
    upgrades := st.upgrades
    gameTime := st.gameTime
    dailyStats := st.dailyStats
    lifetimeStats := st.lifetimeStats
    savedAt := savedAt }

/-- `GameState.loadFromJSON(data, configs)`.  The ambient `Math.random`
draws and `Date.now()` consumed by the restored constructors are supplied
as `draws`/`now`; with `statVariance = 0` and the saved names nonempty
they do not influence any restored field. -/
def GameState.loadFromJSON (st : GameState) (data : GameStateJSON)
    (configs : Configs) (draws : ℕ → ℚ) (now : ℤ) : GameState :=
  let agents := data.agents.map (fun a => Agent.fromJSON a draws now)
  { st with
    cash := data.cash
    reputation := data.reputation
    agents := agents
    nextAgentId :=
      if data.nextAgentId = 0 then (agents.length : ℤ) + 1
      else data.nextAgentId
    leadPool := st.leadPool.loadFromJSON data.leadPool configs.leadSources
      draws
    dialerManager := st.dialerManager.loadFromJSON data.dialerManager
      configs.dialers
    upgrades := data.upgrades
    gameTime := data.gameTime
    dailyStats := data.dailyStats
    lifetimeStats := data.lifetimeStats }

/-- The state `advanceTime(minutes)` has built just after the
minute → hour roll and before its day-end check. -/
def GameState.rolledState (st : GameState) (minutes : ℤ) : GameState :=
  let rolled := GameState.advanceLoop (st.gameTime.minute + minutes)
    st.gameTime.hour
  { st with gameTime := { st.gameTime with
    minute := rolled.1
    hour := rolled.2
    totalMinutes := st.gameTime.totalMinutes + minutes } }

def stateAtFourFiftyNine : GameState :=
  { GameState.initial with gameTime := ⟨1, 16, 59, 0⟩ }

/-- C4 counterexample: advancing one minute from day 1, 16:59 rolls the
clock exactly to the closing hour 17 that `isWorkHours` tests against,
yet `endDay()` is not invoked within that `advanceTime` call: the day
stays 1, the clock is not reset to the next morning, and `daysPlayed`
does not increase. -/
theorem advanceTime_no_endDay_at_17_counterexample :
    (stateAtFourFiftyNine.advanceTime 1).gameTime.hour = 17 ∧
    (stateAtFourFiftyNine.advanceTime 1).gameTime.day = 1 ∧
    (stateAtFourFiftyNine.advanceTime 1).gameTime.minute = 0 ∧
    (stateAtFourFiftyNine.advanceTime 1).lifetimeStats.daysPlayed = 0 ∧
    stateAtFourFiftyNine.isWorkHours = true ∧
    (stateAtFourFiftyNine.advanceTime 1).isWorkHours = false := by
  refine ⟨?_, ?_, ?_, ?_, ?_, ?_⟩ <;>
    simp [stateAtFourFiftyNine, GameState.advanceTime,
      GameState.advanceLoop, GameState.initial, GameState.isWorkHours,
      GameState.endDay, emptyGameLifetimeStats]

/-- C4 (amended): inside `advanceTime` the day-end runs exactly when the
rolled hour reaches or passes 24 (midnight) — not the closing hour 17
that `isWorkHours` tests: whenever the rolled hour is ≥ 24 the same
`advanceTime` call invokes `endDay()` on the rolled state, otherwise the
result is just the rolled clock; and the day counter changes exactly via
this day-end path (then by +1). -/
theorem advanceTime_endDay_exactly_at_24 (st : GameState) (m : ℤ) :
    ((st.rolledState m).gameTime.hour ≥ 24 →
      st.advanceTime m = ((st.rolledState m).endDay).2) ∧
    ((st.rolledState m).gameTime.hour < 24 →
      st.advanceTime m = st.rolledState m) ∧
    ((st.advanceTime m).gameTime.day ≠ st.gameTime.day ↔
      (st.rolledState m).gameTime.hour ≥ 24) ∧
    ((st.rolledState m).gameTime.hour ≥ 24 →
      (st.advanceTime m).gameTime.day = st.gameTime.day + 1) := by
  have hadv : st.advanceTime m =
      if (st.rolledState m).gameTime.hour ≥ 24 then
        ((st.rolledState m).endDay).2
      else st.rolledState m := rfl
  by_cases h : (st.rolledState m).gameTime.hour ≥ 24
  · rw [hadv, if_pos h]
    have hday : (((st.rolledState m).endDay).2).gameTime.day =
        st.gameTime.day + 1 := rfl
    refine ⟨fun _ => rfl, fun hlt => absurd h (not_le.mpr hlt), ?_, fun _ => hday⟩
    rw [hday]
    constructor
    · intro _; exact h
    · intro _; omega
  · rw [hadv, if_neg h]
    have hday : (st.rolledState m).gameTime.day = st.gameTime.day := rfl
    refine ⟨fun hge => absurd hge h, fun _ => rfl, ?_,
      fun hge => absurd hge h⟩
    rw [hday]
    simp [h]

def stateAtElevenFiftyNine : GameState :=
  { GameState.initial with gameTime := ⟨1, 23, 59, 0⟩ }

theorem advanceTime_endDay_witness :
    (stateAtElevenFiftyNine.rolledState 1).gameTime.hour ≥ 24 ∧
      stateAtElevenFiftyNine.advanceTime 1 =
        ((stateAtElevenFiftyNine.rolledState 1).endDay).2 := by
  have h : (stateAtElevenFiftyNine.rolledState 1).gameTime.hour ≥ 24 := by
    simp [stateAtElevenFiftyNine, GameState.rolledState,
      GameState.advanceLoop, GameState.initial]
  exact ⟨h, (advanceTime_endDay_exactly_at_24 stateAtElevenFiftyNine 1).1 h⟩

/-- C5: `endDay()` returns the snapshot of the daily statistics as they
stood immediately before the reset with `profit` set to revenue − costs;
and in the state it leaves behind every agent's daily stats are the empty
all-zero record, every agent's fatigue is its old value lowered by a flat
0.3 and floored at 0, the clock is the start of the next business day
(day incremented by exactly 1, hour 9, minute 0), and the game's daily
stats are cleared to their empty values. -/
theorem endDay_snapshot_reset_and_clock (st : GameState) :
    (st.endDay).1 = { st.dailyStats with
      profit := st.dailyStats.revenue - st.dailyStats.costs } ∧
    (∀ a ∈ (st.endDay).2.agents, a.dailyStats = emptyAgentDailyStats) ∧
    (st.endDay).2.agents.map Agent.fatigue =
      st.agents.map (fun a => max 0 (a.fatigue - 3/10)) ∧
    (st.endDay).2.gameTime.day = st.gameTime.day + 1 ∧
    (st.endDay).2.gameTime.hour = 9 ∧
    (st.endDay).2.gameTime.minute = 0 ∧
    (st.endDay).2.dailyStats = emptyGameDailyStats := by
  refine ⟨rfl, ?_, ?_, rfl, rfl, rfl, rfl⟩
  · intro a ha
    simp only [GameState.endDay] at ha
    obtain ⟨b, hb, rfl⟩ := List.mem_map.mp ha
    rfl
  · simp only [GameState.endDay, List.map_map]
    rfl

theorem endDay_witness :
    GameState.agentEndDay sampleAgent ∈
      (({ GameState.initial with agents := [sampleAgent] } :
        GameState).endDay).2.agents ∧
      (GameState.agentEndDay sampleAgent).dailyStats =
        emptyAgentDailyStats :=
  ⟨by simp [GameState.endDay, GameState.initial],
    (endDay_snapshot_reset_and_clock
      { GameState.initial with agents := [sampleAgent] }).2.1 _
      (by simp [GameState.endDay, GameState.initial])⟩

/-- C7: serializing any game state with `toJSON()` and loading the
resulting document via `loadFromJSON()` into a fresh `GameState` instance
(with the same — in fact any — configuration catalogs) reproduces cash,
reputation, the number of agents, and `gameTime.day` exactly. -/
theorem gameState_roundtrip_core_fields (st : GameState) (configs : Configs)
    (draws : ℕ → ℚ) (savedAt now : ℤ) :
    (GameState.initial.loadFromJSON (st.toJSON savedAt) configs draws
      now).cash = st.cash ∧
    (GameState.initial.loadFromJSON (st.toJSON savedAt) configs draws
      now).reputation = st.reputation ∧
    (GameState.initial.loadFromJSON (st.toJSON savedAt) configs draws
      now).agents.length = st.agents.length ∧
    (GameState.initial.loadFromJSON (st.toJSON savedAt) configs draws
      now).gameTime.day = st.gameTime.day := by
  refine ⟨rfl, rfl, ?_, rfl⟩
  simp [GameState.loadFromJSON, GameState.toJSON]

/-! ### SimulationEngine (src/simulation/SimulationEngine.js)

The configuration constants the engine reads from
`configs.defaults.{agent,call,training}` are flattened into one record.
The optional single-subscriber callbacks only observe the state and are
not part of it.  `this.ticksPerMinute = 6`. -/

structure EngineDefaults where
  dialDurationSeconds : ℚ
  baseRevenuePerConversion : ℚ
  timeOfDayFactors : List (ℤ × ℚ)
  baseWrapUpSeconds : ℚ
  baseAHTSeconds : ℚ
  baseFatigueGainPerCallMinute : ℚ
  baseFatigueRecoveryPerMinute : ℚ
  baseXPPerSession : ℚ
deriving DecidableEq

structure SimulationEngine where
  state : GameState
  rng : SeededRNG
deriving DecidableEq

/-- `completeTraining(agent)`: awards the trained skill's XP (an empty or
unknown skill tag awards nothing; `!skill` also catches the empty
string). -/
def completeTraining (env : JSMath) (cfg : EngineDefaults)
    (eff : UpgradeEffects) (a : Agent) : Agent :=
  match a.currentCall with
  | none => a
  | some c =>
    match c.trainingSkill with
    | none => a
    | some skill =>
      if skill = "" then a
      else
        let xp := calculateTrainingXP env cfg.baseXPPerSession
          (a.skillValue skill) eff.trainingEfficiency (17/20)
        let a' := a.addTrainingXP skill ((xp : ℚ))
        { a' with currentCall := none }

/-- `transitionAgentState(agent)`. -/
def transitionAgentState (env : JSMath) (cfg : EngineDefaults)
    (st : GameState) (a : Agent) : Agent :=
  match a.state with
  | AgentState.dialing => { a with state := AgentState.idle }
  | AgentState.onCall =>
    let wrapTime := calculateWrapUpTime
      { baseWrapUp := cfg.baseWrapUpSeconds
        agentSpeedWrapup := a.speedWrapup
        dialerAHTReduction :=
          match st.dialerManager.getActiveDialer with
          | some d => d.ahtReductionFactor
          | none => 0 }
    a.startWrapUp ((wrapTime : ℚ))
  | AgentState.wrapUp => a.completeWrapUp
  | AgentState.onBreak => { a with state := AgentState.idle }
  | AgentState.training =>
    let a' := completeTraining env cfg st.upgradeEffects a
    { a' with state := AgentState.idle }
  | _ => a

/-- `processAgentStates()`: decrement `stateTimeRemaining` by the 10
second tick; on hitting ≤ 0 run the state's exit transition. -/
def processAgentStates (env : JSMath) (cfg : EngineDefaults)
    (st : GameState) : GameState :=
  { st with agents := st.agents.map (fun a =>
      if a.stateTimeRemaining > 0 then
        let a' := { a with stateTimeRemaining := a.stateTimeRemaining - 10 }
        if a'.stateTimeRemaining ≤ 0 then transitionAgentState env cfg st a'
        else a'
      else a) }

/-- `processAnswer(agent, lead, dialer)`. -/
def processAnswer (env : JSMath) (cfg : EngineDefaults) (dialer : Dialer)
    (agentId leadId : String) (st0 : GameState) (rng0 : SeededRNG) :
    GameState × SeededRNG :=
  match st0.agents.find? (fun a => a.id == agentId),
        st0.leadPool.getLead leadId with
  | some agent, some lead =>
    let st1 := { st0 with
      leadPool := st0.leadPool.updateLead leadId Lead.recordContact }
    let st2 := st1.recordContact
    let lead1 := lead.recordContact
    let conversionProb := calculateConversionProbability env
      { baseConversionProb := lead1.getConversionProbability env.now
        agentMultiplier := agent.getConversionMultiplier
        fatigue := agent.fatigue
        dialerQAMultiplier := dialer.qaAssistMultiplier
        leadRoutingBonus := st2.upgradeEffects.leadRoutingEfficiency
        morale := agent.morale }
    let drawn := rng0.random
    let aht := calculateAHT
      { baseAHT := cfg.baseAHTSeconds
        agentSpeedWrapup := agent.speedWrapup
        dialerAHTReduction := dialer.ahtReductionFactor
        consistencyVariance := 1 - agent.consistency } drawn.1
    let st3 := st2.updateAgent agentId (fun a =>
      a.startCall ((aht : ℚ)) { lead := some lead1, duration := some ((aht : ℚ)) })
    let conv := drawn.2.chance conversionProb
    let st4 :=
      if conv.1 then
        let revenue := calculateConversionRevenue
          { baseRevenue := cfg.baseRevenuePerConversion
            leadQualityMultiplier := lead1.intentMultiplier
            upgradeBonuses := 0 }
        let pool := st3.leadPool.updateLead leadId
          (fun l => l.recordConversion env.now)
        let stc := { st3 with leadPool := pool }
        let stc := stc.updateAgent agentId
          (fun a => a.recordConversion ((revenue : ℚ)))
        stc.recordConversion ((revenue : ℚ))
      else st3
    let compl := conv.2.chance
      (lead1.complianceRisk * (1 - agent.complianceDiscipline))
    let st5 :=
      if compl.1 then
        ((st4.updateAgent agentId Agent.recordComplaint).recordComplaint).adjustReputation (-2)
      else st4
    (st5, compl.2)
  | _, _ => (st0, rng0)

/-- `processDial(agent, lead, dialer)`. -/
def processDial (env : JSMath) (cfg : EngineDefaults) (dialer : Dialer)
    (agentId leadId : String) (st0 : GameState) (rng0 : SeededRNG) :
    GameState × SeededRNG :=
  match st0.agents.find? (fun a => a.id == agentId),
        st0.leadPool.getLead leadId with
  | some _, some lead =>
    let st1 := st0.updateAgent agentId
      (fun a => a.startDialing cfg.dialDurationSeconds)
    let st2 := st1.updateAgent agentId Agent.recordDial
    let pool3 := st2.leadPool.updateLead leadId
      (fun l => l.recordDial env.now)
    let st3 := { st2 with leadPool := pool3 }
    let lead1 := lead.recordDial env.now
    let st4 := st3.recordDial
    let spamProb := calculateSpamTagProbability
      { reputation := st4.reputation
        dialVolume := (st4.dailyStats.dials : ℚ)
        volumeThreshold := 200
        dialerSpamMultiplier := dialer.spamRiskMultiplier
        spamReduction := st4.upgradeEffects.spamReduction }
    let answerProb := calculateAnswerProbability
      { baseAnswerProb := lead1.getAnswerProbability st4.gameTime.hour env.now
        leadIntent := lead1.intentMultiplier
        hourOfDay := st4.gameTime.hour
        reputation := st4.reputation
        dialerConnectMultiplier := dialer.connectRateMultiplier
        localPresenceBonus := st4.upgradeEffects.answerRateBonus
        spamTagProbability := spamProb
        timeFactors := cfg.timeOfDayFactors }
    let answered := rng0.chance answerProb
    if answered.1 then
      processAnswer env cfg dialer agentId leadId st4 answered.2
    else
      let abDraw := answered.2.random
      if dialer.shouldAbandon abDraw.1 then
        ((st4.recordAbandonment).adjustReputation (-(1/2)), abDraw.2)
      else (st4, abDraw.2)
  | _, _ => (st0, rng0)

/-- The dial pairing loop of `processDialing`: the i-th available agent
(snapshot taken up front) is paired with a freshly selected lead; the
loop stops early when the pool yields no lead. -/
def dialLoop (env : JSMath) (cfg : EngineDefaults) (dialer : Dialer) :
    ℕ → List String → GameState → SeededRNG → GameState × SeededRNG
  | 0, _, st, rng => (st, rng)
  | _ + 1, [], st, rng => (st, rng)
  | k + 1, aid :: rest, st, rng =>
    let sel := st.leadPool.getNextLead st.gameTime.hour env.now rng.state
    let rng1 : SeededRNG := { rng with state := sel.2 }
    match sel.1 with
    | none => (st, rng1)
    | some lead =>
      let step := processDial env cfg dialer aid lead.id st rng1
      dialLoop env cfg dialer k rest step.1 step.2

/-- `processDialing(dialer)`. -/
def processDialing (env : JSMath) (cfg : EngineDefaults) (dialer : Dialer)
    (st : GameState) (rng : SeededRNG) : GameState × SeededRNG :=
  let availableAgents := st.getAvailableAgents
  let dialableLeads := st.leadPool.getDialableLeads
  if availableAgents.isEmpty ∨ dialableLeads.isEmpty then (st, rng)
  else
    let dialsThisTick : ℤ :=
      ⌈dialer.dialsPerMinutePerAgent * (availableAgents.length : ℚ) / 6⌉
    let bound : ℤ := min (min dialsThisTick (availableAgents.length : ℤ))
      ((dialableLeads.length : ℤ))
    dialLoop env cfg dialer bound.toNat
      (availableAgents.map (fun a => a.id)) st rng

/-- `processFatigue()`: on-call agents gain, break agents recover at 3×,
idle agents at 0.5×. -/
def processFatigue (cfg : EngineDefaults) (st : GameState) : GameState :=
  { st with agents := st.agents.map (fun a =>
      if a.state = AgentState.onCall then
        a.adjustFatigue (calculateFatigueGain a.resilience
          (cfg.baseFatigueGainPerCallMinute / 6)
          st.upgradeEffects.fatigueGainReduction)
      else if a.state = AgentState.onBreak then
        a.adjustFatigue (-(calculateFatigueRecovery
          (cfg.baseFatigueRecoveryPerMinute / 6)
          st.upgradeEffects.fatigueRecoveryBonus) * 3)
      else if a.state = AgentState.idle then
        a.adjustFatigue (-(calculateFatigueRecovery
          (cfg.baseFatigueRecoveryPerMinute / 6)
          st.upgradeEffects.fatigueRecoveryBonus) * (1/2))
      else a) }

/-- `tick()`: skip when paused or outside work hours; skip when the
active dialer id resolves to no registered dialer; otherwise advance
agent states, dial, and apply fatigue. -/
def tick (env : JSMath) (cfg : EngineDefaults) (e : SimulationEngine) :
    SimulationEngine :=
  if e.state.isPaused ∨ e.state.isWorkHours = false then e
  else
    match e.state.dialerManager.getActiveDialer with
    | none => e
    | some dialer =>
      let st1 := processAgentStates env cfg e.state
      let step := processDialing env cfg dialer st1 e.rng
      let st2 := processFatigue cfg step.1
      ⟨st2, step.2⟩

/-- `processMinute()`: six ticks then `advanceTime(1)`. -/
def processMinute (env : JSMath) (cfg : EngineDefaults)
    (e : SimulationEngine) : SimulationEngine :=
  let e' := (List.range 6).foldl (fun acc _ => tick env cfg acc) e
  ⟨e'.state.advanceTime 1, e'.rng⟩

/-- C10: whenever the dialer manager's `activeDialerId` does not resolve
to a registered dialer, `tick()` leaves the entire engine state (game
state and RNG) unchanged — no agent state advance, no dialing, no fatigue
change and no counter updates — whatever the pause flag or clock say. -/
theorem tick_noop_without_active_dialer (env : JSMath) (cfg : EngineDefaults)
    (e : SimulationEngine)
    (h : e.state.dialerManager.getActiveDialer = none) :
    tick env cfg e = e := by
  by_cases hp : e.state.isPaused ∨ e.state.isWorkHours = false
  · simp [tick, hp]
  · simp [tick, hp, h]

/-- A sample configuration record for running the engine on concrete
inputs. -/
def witnessDefaults : EngineDefaults :=
  { dialDurationSeconds := 5
    baseRevenuePerConversion := 120
    timeOfDayFactors := []
    baseWrapUpSeconds := 45
    baseAHTSeconds := 180
    baseFatigueGainPerCallMinute := 1/100
    baseFatigueRecoveryPerMinute := 1/50
    baseXPPerSession := 100 }

/-- An unpaused engine, inside work hours, whose dialer manager has no
registered dialers (so `activeDialerId = "manual"` resolves to nothing). -/
def engineWithoutDialer : SimulationEngine :=
  ⟨{ GameState.initial with isPaused := false }, SeededRNG.init 7⟩

theorem tick_noop_witness :
    engineWithoutDialer.state.dialerManager.getActiveDialer = none ∧
      engineWithoutDialer.state.isPaused = false ∧
      engineWithoutDialer.state.isWorkHours = true ∧
      tick trivialJSMath witnessDefaults engineWithoutDialer =
        engineWithoutDialer :=
  ⟨rfl, rfl, rfl,
    tick_noop_without_active_dialer trivialJSMath witnessDefaults
      engineWithoutDialer rfl⟩

/-- A manual dialer (unlock cost 0, so unlocked on construction). -/
def witnessManualDialer : Dialer :=
  Dialer.ofConfig { id := "manual", name := "Manual Dialer" }

def witnessDialerManager : DialerManager :=
  ⟨[witnessManualDialer], "manual"⟩

theorem dialerManager_characterization_witness :
    witnessDialerManager.getDialer "manual" = some witnessManualDialer ∧
      witnessManualDialer.unlocked = true ∧
      witnessDialerManager.setActiveDialer "manual" =
        (true, { witnessDialerManager with activeDialerId := "manual" }) :=
  ⟨rfl, rfl,
    dialerManager_setActive_unlock_characterization.2.1
      witnessDialerManager "manual" witnessManualDialer rfl rfl⟩
